import Mathlib

/-!
Utopia-Networking: connection lifecycle, client registry and message pump.

A shallow embedding of `Source/Utopia/Networking/Server.cpp` and
`Source/Utopia/Networking/Client.cpp`.

* Member variables become fields of the structures `Server` and `Client`; every
  member function becomes a function from the state before the call to the state
  after it.
* The transport library (GameNetworkingSockets) is external.  Its answers are the
  fields of `ISteamNetworkingSockets`; every call made to it, every message release
  and every invocation of a user handler is appended, in program order, to the
  ghost field `trace`.
* An unguarded dereference of a null `m_Interface` or of a null message pointer, and a
  failed `assert`, have no defined result: the functions that contain one return
  `Option` and answer `none` there.
* `std::map<HSteamNetConnection, ClientInfo>` is a list of key/value pairs kept in
  ascending key order (`StdMap.WF`), which is also the iteration order of the map.
-/

namespace Utopia

/-! ## Handles, constants and plain data -/

abbrev HSteamNetConnection := Nat
abbrev HSteamListenSocket := Nat
abbrev HSteamNetPollGroup := Nat
abbrev ClientID := HSteamNetConnection

/-- Identity of a user function stored in a `std::function` slot. -/
abbrev HandlerId := Nat

/-- Modelled from the spec: the transport library's header is not among the sources;
this is the "invalid" result of `connect`, the handle that `SendBuffer` refuses. -/
def k_HSteamNetConnection_Invalid : HSteamNetConnection := 0

/-- Modelled from the spec: the "invalid" result of `listen` (library header absent). -/
def k_HSteamListenSocket_Invalid : HSteamListenSocket := 0

/-- Modelled from the spec: the "invalid" poll group handle (library header absent). -/
def k_HSteamNetPollGroup_Invalid : HSteamNetPollGroup := 0

/-- Connection states carried by a status-change notification. -/
inductive ESteamNetworkingConnectionState
  | None
  | Connecting
  | FindingRoute
  | Connected
  | ClosedByPeer
  | ProblemDetectedLocally
  | FinWait
  | Linger
  | Dead
  deriving DecidableEq, Repr

/-- Result codes of the transport library: success, the code `SendBuffer` starts
from, and every other code. -/
inductive EResult
  | k_EResultOK
  | k_EResultInvalidState
  | other (code : Nat)
  deriving DecidableEq, Repr

/-- The two send modes used by the send path. -/
inductive SendFlags
  | k_nSteamNetworkingSend_Unreliable
  | k_nSteamNetworkingSend_Reliable
  deriving DecidableEq, Repr

/-- The record `ClientInfo` of Server.hpp. -/
structure ClientInfo where
  ID : ClientID
  ConnectionDesc : String
  deriving DecidableEq, Repr

/-- Modelled from the spec: `Utopia/Core/Buffer.hpp` is not among the sources; a Buffer
is a view over a contiguous byte region (`Data`) with an explicit length (`Size`). -/
structure Buffer where
  Data : List Nat
  Size : Nat
  deriving DecidableEq, Repr

/-- The fields of a received message that the pumps read. -/
structure SteamNetworkingMessage_t where
  m_conn : HSteamNetConnection
  m_pData : List Nat
  m_cbSize : Int
  m_nMessageNumber : Nat
  deriving DecidableEq, Repr

/-- The part `m_info` of a notification. -/
structure SteamNetConnectionInfo_t where
  m_eState : ESteamNetworkingConnectionState
  m_szEndDebug : String
  m_szConnectionDescription : String
  deriving DecidableEq, Repr

/-- A status-change notification. -/
structure SteamNetConnectionStatusChangedCallback_t where
  m_hConn : HSteamNetConnection
  m_info : SteamNetConnectionInfo_t
  m_eOldState : ESteamNetworkingConnectionState
  deriving DecidableEq, Repr

/-- What one receive call with room for one message yields: the returned count
and the pointer written through the out-parameter. -/
structure ReceiveReply where
  messageCount : Int
  incomingMessage : Option SteamNetworkingMessage_t
  deriving DecidableEq, Repr

/-- One iteration of a pump loop as the environment shapes it: the answers to the
receive calls of the drain, the notifications delivered during `RunCallbacks`, and
whether an application thread clears the running flag (`Stop`, `Disconnect`,
`Shutdown`) while the pump sleeps at the end of the iteration. -/
structure PumpCycle where
  replies : List ReceiveReply
  pending : List SteamNetConnectionStatusChangedCallback_t
  stopRequested : Bool
  deriving DecidableEq, Repr

/-- The reply that hands over exactly one message. -/
def ReceiveReply.one (m : SteamNetworkingMessage_t) : ReceiveReply :=
  { messageCount := 1, incomingMessage := some m }

/-- The view `Buffer(incomingMessage->m_pData, incomingMessage->m_cbSize)`: the `int`
size is converted to the unsigned 64-bit length of the view. -/
def Buffer.ofMessage (m : SteamNetworkingMessage_t) : Buffer :=
  { Data := m.m_pData, Size := (m.m_cbSize % (2 ^ 64 : Int)).toNat }

/-- Answers of the transport library, as functions of the arguments of the call. -/
structure ISteamNetworkingSockets where
  GameNetworkingSockets_Init : Bool
  SteamNetworkingSockets : Bool
  ParseString : String → Bool
  ConnectByIPAddress : String → HSteamNetConnection
  CreateListenSocketIP : Nat → HSteamListenSocket
  CreatePollGroup : HSteamNetPollGroup
  AcceptConnection : HSteamNetConnection → EResult
  SetConnectionPollGroup : HSteamNetConnection → HSteamNetPollGroup → Bool
  GetConnectionInfo : HSteamNetConnection → String
  CloseConnection : HSteamNetConnection → Bool
  SendMessageToConnection : HSteamNetConnection → List Nat → Nat → SendFlags → EResult

/-! ## The client registry: `std::map<HSteamNetConnection, ClientInfo>` -/

abbrev StdMap := List (HSteamNetConnection × ClientInfo)

namespace StdMap

/-- The keys in iteration order. -/
def keys (m : StdMap) : List HSteamNetConnection := m.map Prod.fst

/-- Keys strictly ascending: the shape every `std::map` has. -/
def WF (m : StdMap) : Prop := (keys m).Pairwise (fun a b => a < b)

/-- Map operation `find(k)`: the mapped value, `none` standing for `end()`. -/
def find (m : StdMap) (k : HSteamNetConnection) : Option ClientInfo := List.lookup k m

/-- Map operation `erase(it)` for the iterator `find(k)` returned. -/
def erase (m : StdMap) (k : HSteamNetConnection) : StdMap := m.filter (fun p => p.1 ≠ k)

/-- Map assignment `m[k] = v`: `operator[]` default-constructs a missing entry and
returns a reference to the entry, into which both members are then stored. -/
def insert : StdMap → HSteamNetConnection → ClientInfo → StdMap
  | [], k, v => [(k, v)]
  | (k0, v0) :: rest, k, v =>
    if k < k0 then (k, v) :: (k0, v0) :: rest
    else if k = k0 then (k, v) :: rest
    else (k0, v0) :: insert rest k v

end StdMap

/-! ## The observable trace -/

/-- Calls into the transport library, message releases and handler invocations. -/
inductive Event
  | GameNetworkingSockets_Init
  | GameNetworkingSockets_Kill
  | CreateListenSocketIP (port : Nat)
  | CreatePollGroup
  | CloseListenSocket (hSocket : HSteamListenSocket)
  | DestroyPollGroup (hPollGroup : HSteamNetPollGroup)
  | ConnectByIPAddress (address : String)
  | AcceptConnection (hConn : HSteamNetConnection)
  | SetConnectionPollGroup (hConn : HSteamNetConnection) (hPollGroup : HSteamNetPollGroup)
  | GetConnectionInfo (hConn : HSteamNetConnection)
  | CloseConnection (hConn : HSteamNetConnection) (nReason : Int) (pszDebug : Option String)
      (bEnableLinger : Bool)
  | SendMessageToConnection (hConn : HSteamNetConnection) (pData : List Nat) (cbData : Nat)
      (nSendFlags : SendFlags)
  | ReceiveMessagesOnPollGroup (hPollGroup : HSteamNetPollGroup)
  | ReceiveMessagesOnConnection (hConn : HSteamNetConnection)
  | RunCallbacks
  | Release (msg : SteamNetworkingMessage_t)
  | Server_DataReceivedCallback (f : HandlerId) (client : ClientInfo) (buffer : Buffer)
  | Server_ClientConnectedCallback (f : HandlerId) (client : ClientInfo)
  | Server_ClientDisconnectedCallback (f : HandlerId) (client : ClientInfo)
      (registryAtCall : StdMap)
  | Client_DataReceivedCallback (f : HandlerId) (buffer : Buffer)
  | Client_ServerConnectedCallback (f : HandlerId)
  | Client_ServerDisconnectedCallback (f : HandlerId)
  deriving DecidableEq, Repr

/-! ## Server -/

/-- The member variables of `Utopia::Server`, the static `s_Instance` (true when it
points at this object) and the ghost trace. -/
structure Server where
  m_NetworkThread : Bool
  m_DataReceivedCallback : Option HandlerId
  m_ClientConnectedCallback : Option HandlerId
  m_ClientDisconnectedCallback : Option HandlerId
  m_Port : Int
  m_Running : Bool
  m_ConnectedClients : StdMap
  m_Interface : Bool
  m_ListenSocket : HSteamListenSocket
  m_PollGroup : HSteamNetPollGroup
  s_Instance : Bool
  trace : List Event
  deriving DecidableEq, Repr

namespace Server

/-- Append one event to the trace. -/
def emit (s : Server) (e : Event) : Server := { s with trace := s.trace ++ [e] }

/-- The object right after `Server(port)`. -/
def new (port : Int) : Server :=
  { m_NetworkThread := false
    m_DataReceivedCallback := none
    m_ClientConnectedCallback := none
    m_ClientDisconnectedCallback := none
    m_Port := port
    m_Running := false
    m_ConnectedClients := []
    m_Interface := false
    m_ListenSocket := k_HSteamListenSocket_Invalid
    m_PollGroup := k_HSteamNetPollGroup_Invalid
    s_Instance := false
    trace := [] }

/-- Accessor `GetConnectedClients()`. -/
def GetConnectedClients (s : Server) : StdMap := s.m_ConnectedClients

/-- Member function `Server::Stop`. -/
def Stop (s : Server) : Server := { s with m_Running := false }

def SetDataReceivedCallback (s : Server) (function : Option HandlerId) : Server :=
  { s with m_DataReceivedCallback := function }

def SetClientConnectedCallback (s : Server) (function : Option HandlerId) : Server :=
  { s with m_ClientConnectedCallback := function }

def SetClientDisconnectedCallback (s : Server) (function : Option HandlerId) : Server :=
  { s with m_ClientDisconnectedCallback := function }

/-- Member function `Server::OnFatalError`. -/
def OnFatalError (s : Server) : Server := { s with m_Running := false }

/-- The event of `CloseConnection(hConn, 0, nullptr, false)`. -/
def closeEvent (hConn : HSteamNetConnection) : Event :=
  Event.CloseConnection hConn 0 none false

/-- The statements under `if (itClient != m_ConnectedClients.end())`: the
client-disconnected handler, if one is stored, is invoked with the entry found
(`registryAtCall` records the registry as it is during the call), then the entry is
erased. -/
def afterDisconnect (s : Server) (hConn : HSteamNetConnection) (client : ClientInfo) :
    Server :=
  { (match s.m_ClientDisconnectedCallback with
      | some f => s.emit (.Server_ClientDisconnectedCallback f client s.m_ConnectedClients)
      | none => s) with
    m_ConnectedClients := s.m_ConnectedClients.erase hConn }

/-- The block under `case k_ESteamNetworkingConnectionState_ClosedByPeer:` and
`case k_ESteamNetworkingConnectionState_ProblemDetectedLocally:` of
`Server::OnConnectionStatusChanged`. -/
def onClosed (s : Server) (status : SteamNetConnectionStatusChangedCallback_t) :
    Option Server :=
  let s1 : Server :=
    if status.m_eOldState = .Connected then
      match s.m_ConnectedClients.find status.m_hConn with
      | some client => afterDisconnect s status.m_hConn client
      | none => s
    else s
  if s1.m_Interface then some (s1.emit (closeEvent status.m_hConn)) else none

/-- The block under `case k_ESteamNetworkingConnectionState_Connecting:` of
`Server::OnConnectionStatusChanged`. -/
def onConnecting (api : ISteamNetworkingSockets) (s : Server)
    (status : SteamNetConnectionStatusChangedCallback_t) : Option Server :=
  if s.m_Interface then
    let s1 := s.emit (.AcceptConnection status.m_hConn)
    if api.AcceptConnection status.m_hConn ≠ .k_EResultOK then
      some (s1.emit (closeEvent status.m_hConn))
    else
      let s2 := s1.emit (.SetConnectionPollGroup status.m_hConn s1.m_PollGroup)
      if api.SetConnectionPollGroup status.m_hConn s1.m_PollGroup = false then
        some (s2.emit (closeEvent status.m_hConn))
      else
        let s3 := s2.emit (.GetConnectionInfo status.m_hConn)
        let client : ClientInfo :=
          { ID := status.m_hConn, ConnectionDesc := api.GetConnectionInfo status.m_hConn }
        let s4 : Server :=
          { s3 with m_ConnectedClients := s3.m_ConnectedClients.insert status.m_hConn client }
        match s4.m_ClientConnectedCallback with
        | some f => some (s4.emit (.Server_ClientConnectedCallback f client))
        | none => some s4
  else none

/-- Member function `Server::OnConnectionStatusChanged`: the `switch` on the new state. -/
def OnConnectionStatusChanged (api : ISteamNetworkingSockets) (s : Server)
    (status : SteamNetConnectionStatusChangedCallback_t) : Option Server :=
  match status.m_info.m_eState with
  | .None => some s
  | .ClosedByPeer | .ProblemDetectedLocally => onClosed s status
  | .Connecting => onConnecting api s status
  | .Connected => some s
  | _ => some s

/-- The static `Server::ConnectionStatusChangedCallback`. -/
def ConnectionStatusChangedCallback (api : ISteamNetworkingSockets) (s : Server)
    (info : SteamNetConnectionStatusChangedCallback_t) : Option Server :=
  if s.s_Instance then OnConnectionStatusChanged api s info else some s

/-- Member function `Server::PollConnectionStateChanges`; `pending` are the
notifications the library delivers, synchronously and in order, during this
`RunCallbacks`. -/
def PollConnectionStateChanges (api : ISteamNetworkingSockets) (s : Server)
    (pending : List SteamNetConnectionStatusChangedCallback_t) : Option Server :=
  if s.m_Interface then
    pending.foldlM (ConnectionStatusChangedCallback api) (s.emit .RunCallbacks)
  else some s

/-- The events of one delivered message: the handler call (when the size is positive
and a handler is stored) followed by the release. -/
def deliver (s : Server) (client : ClientInfo) (msg : SteamNetworkingMessage_t) : Server :=
  let s1 : Server :=
    match s.m_DataReceivedCallback with
    | some f =>
      if msg.m_cbSize > 0 then
        s.emit (.Server_DataReceivedCallback f client (Buffer.ofMessage msg))
      else s
    | none => s
  s1.emit (.Release msg)

/-- Member function `Server::PollIncomingMessages`; `replies` are the answers of the
successive receive calls, and once they are used up the library answers 0. -/
def PollIncomingMessages : Server → List ReceiveReply → Option Server
  | s, [] =>
    if s.m_Running then
      if s.m_Interface then some (s.emit (.ReceiveMessagesOnPollGroup s.m_PollGroup)) else none
    else some s
  | s, r :: rest =>
    if s.m_Running then
      if s.m_Interface then
        let s1 := s.emit (.ReceiveMessagesOnPollGroup s.m_PollGroup)
        if r.messageCount = 0 then some s1
        else if r.messageCount < 0 then some { s1 with m_Running := false }
        else
          match r.incomingMessage with
          | some incomingMessage =>
            if r.messageCount = 1 then
              match s1.m_ConnectedClients.find incomingMessage.m_conn with
              | none => PollIncomingMessages (s1.emit (.Release incomingMessage)) rest
              | some client => PollIncomingMessages (deliver s1 client incomingMessage) rest
            else none
          | none => none
      else none
    else some s

/-- The send mode chosen by `reliable ? ... : ...` on the send path. -/
def sendFlags (reliable : Bool) : SendFlags :=
  if reliable then .k_nSteamNetworkingSend_Reliable else .k_nSteamNetworkingSend_Unreliable

/-- The adapter call by which `buffer` is sent on `hConn`. -/
def sendEvent (buffer : Buffer) (reliable : Bool) (hConn : HSteamNetConnection) : Event :=
  .SendMessageToConnection hConn buffer.Data (buffer.Size % 2 ^ 32) (sendFlags reliable)

/-- Member function `Server::SendBufferToClient`. -/
def SendBufferToClient (api : ISteamNetworkingSockets) (s : Server) (clientID : ClientID)
    (buffer : Buffer) (reliable : Bool) : Server :=
  if s.m_Interface then
    let flags : SendFlags :=
      if reliable then .k_nSteamNetworkingSend_Reliable else .k_nSteamNetworkingSend_Unreliable
    let s1 := s.emit (.SendMessageToConnection clientID buffer.Data (buffer.Size % 2 ^ 32) flags)
    -- a result other than k_EResultOK is only written to the log
    if api.SendMessageToConnection clientID buffer.Data (buffer.Size % 2 ^ 32) flags
        ≠ .k_EResultOK then s1 else s1
  else s

/-- Member function `Server::SendBufferToAllClients`. -/
def SendBufferToAllClients (api : ISteamNetworkingSockets) (s : Server) (buffer : Buffer)
    (excludeClientID : ClientID) (reliable : Bool) : Server :=
  s.m_ConnectedClients.foldl
    (fun acc p => if p.1 = excludeClientID then acc
      else SendBufferToClient api acc p.1 buffer reliable) s

/-- Member function `Server::KickClient`. -/
def KickClient (api : ISteamNetworkingSockets) (s : Server) (clientID : ClientID) : Server :=
  if s.m_Interface then
    let s1 := s.emit (.CloseConnection clientID 0 (some "Kicked by host") false)
    -- a false result is only written to the log
    if api.CloseConnection clientID = false then s1 else s1
  else s

/-- The shutdown sequence at the end of `Server::NetworkThreadFunc` (after the loop). -/
def teardown (s : Server) : Option Server :=
  if s.m_Interface then
    let s1 : Server :=
      s.m_ConnectedClients.foldl
        (fun acc p => acc.emit (.CloseConnection p.1 0 (some "Server Shutdown") true)) s
    let s2 : Server := { s1 with m_ConnectedClients := [] }
    let s3 := s2.emit (.CloseListenSocket s2.m_ListenSocket)
    let s4 : Server := { s3 with m_ListenSocket := k_HSteamListenSocket_Invalid }
    let s5 := s4.emit (.DestroyPollGroup s4.m_PollGroup)
    let s6 : Server := { s5 with m_PollGroup := k_HSteamNetPollGroup_Invalid }
    some (s6.emit .GameNetworkingSockets_Kill)
  else none

/-- The poll loop `while (m_Running.load())` of `Server::NetworkThreadFunc`.  A script
that ends while the flag is still set does not determine the rest of the run. -/
def pumpLoop (api : ISteamNetworkingSockets) : Server → List PumpCycle → Option Server
  | s, [] => if s.m_Running then none else some s
  | s, c :: cs =>
    if s.m_Running then
      match PollIncomingMessages s c.replies with
      | none => none
      | some s1 =>
        match PollConnectionStateChanges api s1 c.pending with
        | none => none
        | some s2 => pumpLoop api (if c.stopRequested then Stop s2 else s2) cs
    else some s

/-- Member function `Server::NetworkThreadFunc`. -/
def NetworkThreadFunc (api : ISteamNetworkingSockets) (s : Server)
    (script : List PumpCycle) : Option Server :=
  let s1 : Server := { s with s_Instance := true }
  let s2 : Server := { s1 with m_Running := true }
  let s3 := s2.emit .GameNetworkingSockets_Init
  if api.GameNetworkingSockets_Init = false then some (OnFatalError s3)
  else if api.SteamNetworkingSockets = false then none
  else
    let s4 : Server := { s3 with m_Interface := true }
    let port : Nat := (s4.m_Port % 65536).toNat
    let s5 : Server :=
      { s4.emit (.CreateListenSocketIP port) with
        m_ListenSocket := api.CreateListenSocketIP port }
    if s5.m_ListenSocket = k_HSteamListenSocket_Invalid then some (OnFatalError s5)
    else
      let s6 : Server := { s5.emit .CreatePollGroup with m_PollGroup := api.CreatePollGroup }
      if s6.m_PollGroup = k_HSteamNetPollGroup_Invalid then some (OnFatalError s6)
      else
        match pumpLoop api s6 script with
        | none => none
        | some s7 => teardown s7

end Server

/-- The operations that act on a running server, one constructor per entry point. -/
inductive ServerOp
  | OnConnectionStatusChanged (status : SteamNetConnectionStatusChangedCallback_t)
  | PollIncomingMessages (replies : List ReceiveReply)
  | SendBufferToClient (clientID : ClientID) (buffer : Buffer) (reliable : Bool)
  | SendBufferToAllClients (buffer : Buffer) (excludeClientID : ClientID) (reliable : Bool)
  | KickClient (clientID : ClientID)
  | teardown
  deriving DecidableEq, Repr

namespace Server

/-- Run one operation. -/
def applyOp (api : ISteamNetworkingSockets) (s : Server) : ServerOp → Option Server
  | .OnConnectionStatusChanged status => OnConnectionStatusChanged api s status
  | .PollIncomingMessages replies => PollIncomingMessages s replies
  | .SendBufferToClient clientID buffer reliable =>
    some (SendBufferToClient api s clientID buffer reliable)
  | .SendBufferToAllClients buffer excludeClientID reliable =>
    some (SendBufferToAllClients api s buffer excludeClientID reliable)
  | .KickClient clientID => some (KickClient api s clientID)
  | .teardown => teardown s

/-- Run a sequence of operations, first to last. -/
def runOps (api : ISteamNetworkingSockets) (s : Server) (ops : List ServerOp) : Option Server :=
  ops.foldlM (applyOp api) s

/-- A server inside its poll loop with no client registered yet, as
`NetworkThreadFunc` has built it when it reaches `while (m_Running.load())`, except
that the trace starts empty (the calls of the start-up are left out). -/
def listening (port : Int) (listenSocket : HSteamListenSocket) (pollGroup : HSteamNetPollGroup)
    (onData onConnected onDisconnected : Option HandlerId) : Server :=
  { new port with
    m_NetworkThread := true
    m_DataReceivedCallback := onData
    m_ClientConnectedCallback := onConnected
    m_ClientDisconnectedCallback := onDisconnected
    m_Running := true
    m_Interface := true
    m_ListenSocket := listenSocket
    m_PollGroup := pollGroup
    s_Instance := true }

end Server

/-- Whether an event is an invocation of the client-connected or of the
client-disconnected handler. -/
def Event.isLifecycle : Event → Bool
  | .Server_ClientConnectedCallback _ _ => true
  | .Server_ClientDisconnectedCallback _ _ _ => true
  | _ => false

/-- How one more event changes the answer to "was the client-connected handler
invoked for `id` with no later invocation of the client-disconnected handler". -/
def lifecycleStep (id : ClientID) (b : Bool) (e : Event) : Bool :=
  match e with
  | .Server_ClientConnectedCallback _ c => if c.ID = id then true else b
  | .Server_ClientDisconnectedCallback _ c _ => if c.ID = id then false else b
  | _ => b

/-- Whether the last client-connected or client-disconnected handler invocation
recorded for `id` is a client-connected one. -/
def connectedPending (id : ClientID) (tr : List Event) : Bool :=
  tr.foldl (lifecycleStep id) false

/-- Every entry of the registry carries its own key as `ID`, and every identifier with
a pending client-connected invocation is a key. -/
def Server.Inv (s : Server) : Prop :=
  (∀ p ∈ s.m_ConnectedClients, p.2.ID = p.1)
  ∧ ∀ id, connectedPending id s.trace = true → id ∈ s.m_ConnectedClients.keys

/-- The second state has the registry and the handler slots of the first, and no
client-connected or client-disconnected invocation happened in between. -/
def Server.SameLifecycle (s s1 : Server) : Prop :=
  s1.m_ConnectedClients = s.m_ConnectedClients
  ∧ s1.m_ClientDisconnectedCallback = s.m_ClientDisconnectedCallback
  ∧ ∀ id, connectedPending id s1.trace = connectedPending id s.trace

/-- The handler identity, client record and buffer of a data-received invocation on
the server; `none` for every other event. -/
def Event.asServerDataReceived : Event → Option (HandlerId × ClientInfo × Buffer)
  | .Server_DataReceivedCallback f client buffer => some (f, client, buffer)
  | _ => none

/-- The message of a release; `none` for every other event. -/
def Event.asRelease : Event → Option SteamNetworkingMessage_t
  | .Release msg => some msg
  | _ => none

/-- What the drain is expected to do with one polled message on a server whose
data-received slot holds `f`: the receive call, then for a registered sender and a
positive size the handler invocation with the sender's record and the message bytes,
then the release. -/
def Server.messageEvents (s : Server) (f : HandlerId) (msg : SteamNetworkingMessage_t) :
    List Event :=
  Event.ReceiveMessagesOnPollGroup s.m_PollGroup ::
    (match s.m_ConnectedClients.find msg.m_conn with
      | some client =>
        if msg.m_cbSize > 0 then
          [Event.Server_DataReceivedCallback f client (Buffer.ofMessage msg), Event.Release msg]
        else [Event.Release msg]
      | none => [Event.Release msg])

/-- The data-received invocation a polled message is expected to cause, if any. -/
def Server.expectedDelivery (s : Server) (f : HandlerId) (msg : SteamNetworkingMessage_t) :
    Option (HandlerId × ClientInfo × Buffer) :=
  match s.m_ConnectedClients.find msg.m_conn with
  | some client => if msg.m_cbSize > 0 then some (f, client, Buffer.ofMessage msg) else none
  | none => none

/-! ## Client -/

/-- The enum `Client::ConnectionStatus`. -/
inductive ConnectionStatus
  | Disconnected
  | Connected
  | Connecting
  | FailedToConnect
  deriving DecidableEq, Repr

/-- Where the thread function `Client::NetworkThreadFunc` of a client stands while an
application thread makes a call: no thread function is executing (none was started,
or it has returned); the thread was spawned and has not executed its first statement;
or it is inside `while (m_Running.load())`, asleep between two iterations. -/
inductive PumpPosition
  | idle
  | starting
  | polling
  deriving DecidableEq, Repr

/-- The member variables of `Utopia::Client`, the static `s_Instance` (true when it
points at this object), the ghost trace and the ghost position of the pump thread.
`m_NetworkThread` is true when the `std::thread` member is joinable. -/
structure Client where
  m_NetworkThread : Bool
  m_DataReceivedCallback : Option HandlerId
  m_ServerConnectedCallback : Option HandlerId
  m_ServerDisconnectedCallback : Option HandlerId
  m_ConnectionStatus : ConnectionStatus
  m_ConnectionDebugMessage : String
  m_ServerAddress : String
  m_Running : Bool
  m_Interface : Bool
  m_Connection : HSteamNetConnection
  s_Instance : Bool
  trace : List Event
  pump : PumpPosition
  deriving DecidableEq, Repr

namespace Client

/-- Append one event to the trace. -/
def emit (s : Client) (e : Event) : Client := { s with trace := s.trace ++ [e] }

/-- The object right after `Client()`. -/
def new : Client :=
  { m_NetworkThread := false
    m_DataReceivedCallback := none
    m_ServerConnectedCallback := none
    m_ServerDisconnectedCallback := none
    m_ConnectionStatus := .Disconnected
    m_ConnectionDebugMessage := ""
    m_ServerAddress := ""
    m_Running := false
    m_Interface := false
    m_Connection := k_HSteamNetConnection_Invalid
    s_Instance := false
    trace := []
    pump := .idle }

def GetConnectionStatus (s : Client) : ConnectionStatus := s.m_ConnectionStatus

def SetDataReceivedCallback (s : Client) (function : Option HandlerId) : Client :=
  { s with m_DataReceivedCallback := function }

def SetServerConnectedCallback (s : Client) (function : Option HandlerId) : Client :=
  { s with m_ServerConnectedCallback := function }

def SetServerDisconnectedCallback (s : Client) (function : Option HandlerId) : Client :=
  { s with m_ServerDisconnectedCallback := function }

/-- Member function `Client::Shutdown`. -/
def Shutdown (s : Client) : Client := { s with m_Running := false }

/-- Member function `Client::OnFatalError`. -/
def OnFatalError (s : Client) : Client := { s with m_Running := false }

/-- Member function `Client::OnConnectionStatusChanged`. -/
def OnConnectionStatusChanged (s : Client)
    (info : SteamNetConnectionStatusChangedCallback_t) : Client :=
  match info.m_info.m_eState with
  | .None => s
  | .ClosedByPeer | .ProblemDetectedLocally =>
    let s1 : Client := { s with m_Running := false }
    let s2 : Client := { s1 with m_ConnectionStatus := .FailedToConnect }
    let s3 : Client := { s2 with m_ConnectionDebugMessage := info.m_info.m_szEndDebug }
    -- the branches on m_eOldState and m_eState that follow only write to the log
    let s4 : Client :=
      if s3.m_Interface then s3.emit (.CloseConnection info.m_hConn 0 none false) else s3
    let s5 : Client := { s4 with m_Connection := k_HSteamNetConnection_Invalid }
    { s5 with m_ConnectionStatus := .Disconnected }
  | .Connecting => s
  | .Connected =>
    let s1 : Client := { s with m_ConnectionStatus := .Connected }
    match s1.m_ServerConnectedCallback with
    | some f => s1.emit (.Client_ServerConnectedCallback f)
    | none => s1
  | _ => s

/-- The static `Client::ConnectionStatusChangedCallback`. -/
def ConnectionStatusChangedCallback (s : Client)
    (info : SteamNetConnectionStatusChangedCallback_t) : Client :=
  if s.s_Instance then OnConnectionStatusChanged s info else s

/-- Member function `Client::PollConnectionStateChanges`; `pending` are the
notifications the library delivers, synchronously and in order, during this
`RunCallbacks`. -/
def PollConnectionStateChanges (s : Client)
    (pending : List SteamNetConnectionStatusChangedCallback_t) : Client :=
  if s.m_Interface then
    pending.foldl ConnectionStatusChangedCallback (s.emit .RunCallbacks)
  else s

/-- Member function `Client::PollIncomingMessages`; `replies` are the answers of the
successive receive calls, and once they are used up the library answers 0. -/
def PollIncomingMessages : Client → List ReceiveReply → Option Client
  | s, [] =>
    if s.m_Running then
      if s.m_Interface && s.m_Connection != k_HSteamNetConnection_Invalid then
        some (s.emit (.ReceiveMessagesOnConnection s.m_Connection))
      else some s
    else some s
  | s, r :: rest =>
    if s.m_Running then
      if s.m_Interface && s.m_Connection != k_HSteamNetConnection_Invalid then
        let s1 := s.emit (.ReceiveMessagesOnConnection s.m_Connection)
        if r.messageCount = 0 then some s1
        else if r.messageCount < 0 then some { s1 with m_Running := false }
        else
          match r.incomingMessage with
          | some incomingMessage =>
            let s2 : Client :=
              match s1.m_DataReceivedCallback with
              | some f =>
                s1.emit (.Client_DataReceivedCallback f (Buffer.ofMessage incomingMessage))
              | none => s1
            PollIncomingMessages (s2.emit (.Release incomingMessage)) rest
          | none => none
      else some s
    else some s

/-- Member function `Client::SendBuffer`. -/
def SendBuffer (api : ISteamNetworkingSockets) (s : Client) (buffer : Buffer)
    (reliable : Bool) : Client :=
  if s.m_Interface && s.m_Connection != k_HSteamNetConnection_Invalid then
    let flags : SendFlags :=
      if reliable then .k_nSteamNetworkingSend_Reliable else .k_nSteamNetworkingSend_Unreliable
    let s1 :=
      s.emit (.SendMessageToConnection s.m_Connection buffer.Data (buffer.Size % 2 ^ 32) flags)
    -- a result other than k_EResultOK is only written to the log
    if api.SendMessageToConnection s.m_Connection buffer.Data (buffer.Size % 2 ^ 32) flags
        ≠ .k_EResultOK then s1 else s1
  else s

/-- The poll loop `while (m_Running.load())` of `Client::NetworkThreadFunc`.  A script
that ends while the flag is still set does not determine the rest of the run. -/
def pumpLoop : Client → List PumpCycle → Option Client
  | s, [] => if s.m_Running then none else some s
  | s, c :: cs =>
    if s.m_Running then
      match PollIncomingMessages s c.replies with
      | none => none
      | some s1 =>
        let s2 := PollConnectionStateChanges s1 c.pending
        pumpLoop (if c.stopRequested then Shutdown s2 else s2) cs
    else some s

/-- The statements of `Client::NetworkThreadFunc` that follow the loop. -/
def teardown (s : Client) : Option Client :=
  if s.m_Interface then
    -- a false result of CloseConnection is only written to the log
    let s1 := s.emit (.CloseConnection s.m_Connection 0 none false)
    let s2 : Client := { s1 with m_ConnectionStatus := .Disconnected }
    some (s2.emit .GameNetworkingSockets_Kill)
  else none

/-- Member function `Client::NetworkThreadFunc`. -/
def NetworkThreadFunc (api : ISteamNetworkingSockets) (s : Client)
    (script : List PumpCycle) : Option Client :=
  let s1 : Client := { s with s_Instance := true }
  let s2 : Client := { s1 with m_ConnectionStatus := .Connecting }
  let s3 := s2.emit .GameNetworkingSockets_Init
  if api.GameNetworkingSockets_Init = false then
    some { s3 with
      m_ConnectionDebugMessage := "Could not initialize GameNetworkingSockets"
      m_ConnectionStatus := .FailedToConnect }
  else if api.SteamNetworkingSockets = false then none
  else
    let s4 : Client := { s3 with m_Interface := true }
    if api.ParseString s4.m_ServerAddress = false then
      some { OnFatalError s4 with
        m_ConnectionDebugMessage := "Invalid IP address"
        m_ConnectionStatus := .FailedToConnect }
    else
      let s5 : Client :=
        { s4.emit (.ConnectByIPAddress s4.m_ServerAddress) with
          m_Connection := api.ConnectByIPAddress s4.m_ServerAddress }
      if s5.m_Connection = k_HSteamNetConnection_Invalid then
        some { s5 with
          m_ConnectionDebugMessage := "Failed to create connection"
          m_ConnectionStatus := .FailedToConnect }
      else
        let s6 : Client := { s5 with m_Running := true }
        match pumpLoop s6 script with
        | none => none
        | some s7 => teardown s7

/-- Member function `Client::ConnectToServer`.  The thread it starts is run to its end
here, on the given script, so the pump's position is `idle` before and after; a join of
an earlier thread, which has ended, only clears the handle. -/
def ConnectToServer (api : ISteamNetworkingSockets) (s : Client) (serverAddress : String)
    (script : List PumpCycle) : Option Client :=
  if s.m_Running then some s
  else
    let s1 : Client := if s.m_NetworkThread then { s with m_NetworkThread := false } else s
    let s2 : Client := { s1 with m_ServerAddress := serverAddress }
    let s3 : Client := { s2 with m_NetworkThread := true }
    NetworkThreadFunc api s3 script

/-- The call `m_NetworkThread.join()`: the state in which the thread function has
returned, `none` when it does not return on the given script.  A thread function that
has returned already leaves nothing to wait for.  A thread that was spawned and has not
run yet executes `NetworkThreadFunc` from its first statement, so it stores true into
the running flag when its start-up succeeds and then polls until the flag is cleared.
A thread asleep inside the loop goes on with the loop, which it leaves at once when the
flag is clear, and then runs the statements after the loop. -/
def join (api : ISteamNetworkingSockets) (s : Client) (script : List PumpCycle) :
    Option Client :=
  match s.pump with
  | .idle => some s
  | .starting =>
    match NetworkThreadFunc api s script with
    | some s1 => some { s1 with pump := .idle }
    | none => none
  | .polling =>
    match pumpLoop s script with
    | some s1 =>
      match teardown s1 with
      | some s2 => some { s2 with pump := .idle }
      | none => none
    | none => none

/-- Member function `Client::Disconnect`: store false into the running flag, then join
the thread if it is joinable.  `script` is what the environment does while the join
waits for the pump. -/
def Disconnect (api : ISteamNetworkingSockets) (s : Client) (script : List PumpCycle) :
    Option Client :=
  let s1 : Client := { s with m_Running := false }
  if s1.m_NetworkThread then
    match join api s1 script with
    | some s2 => some { s2 with m_NetworkThread := false }
    | none => none
  else some s1

end Client

/-- Whether an event is a poll of the client's pump loop: a receive call on the
connection or a run of the pending status-change callbacks. -/
def Event.isPoll : Event → Bool
  | .ReceiveMessagesOnConnection _ => true
  | .RunCallbacks => true
  | _ => false

/-- Whether an event is an invocation of the client's server-disconnected handler. -/
def Event.isServerDisconnected : Event → Bool
  | .Client_ServerDisconnectedCallback _ => true
  | _ => false

/-- Whether an event is one of the three calls by which the server pump releases its
transport resources after the loop: closing the listen socket, destroying the poll
group, shutting the library down. -/
def Event.isTeardown : Event → Bool
  | .CloseListenSocket _ => true
  | .DestroyPollGroup _ => true
  | .GameNetworkingSockets_Kill => true
  | _ => false

/-- The adapter call by which the server's shutdown sequence closes a registered
connection: `CloseConnection(clientID, 0, "Server Shutdown", true)`. -/
def Server.shutdownClose (hConn : HSteamNetConnection) : Event :=
  Event.CloseConnection hConn 0 (some "Server Shutdown") true

/-- The state in which `Server::NetworkThreadFunc` reaches `while (m_Running.load())`
when library initialisation, listen-socket creation and poll-group creation all
succeeded. -/
def Server.loopEntry (api : ISteamNetworkingSockets) (s : Server) : Server :=
  { s with
    s_Instance := true
    m_Running := true
    m_Interface := true
    m_ListenSocket := api.CreateListenSocketIP (s.m_Port % 65536).toNat
    m_PollGroup := api.CreatePollGroup
    trace := s.trace ++
      [Event.GameNetworkingSockets_Init,
       Event.CreateListenSocketIP (s.m_Port % 65536).toNat,
       Event.CreatePollGroup] }

/-- The second state is reached from the first by steps of the poll loop: same
adapter pointer, same listen socket and poll group, a registry that is still a map
with ascending keys if it was one, and a trace extended by events none of which is a
release of the pump's transport resources. -/
def Server.Advances (s s1 : Server) : Prop :=
  s1.m_Interface = s.m_Interface
  ∧ s1.m_ListenSocket = s.m_ListenSocket
  ∧ s1.m_PollGroup = s.m_PollGroup
  ∧ (s.m_ConnectedClients.WF → s1.m_ConnectedClients.WF)
  ∧ ∃ new, s1.trace = s.trace ++ new ∧ ∀ e ∈ new, e.isTeardown = false

end Utopia

namespace Utopia

/-! ## Concrete environments and states used by the closed statements -/

namespace Examples

/-- A transport library on which every call succeeds. -/
def api : ISteamNetworkingSockets :=
  { GameNetworkingSockets_Init := true
    SteamNetworkingSockets := true
    ParseString := fun _ => true
    ConnectByIPAddress := fun _ => 5
    CreateListenSocketIP := fun _ => 1
    CreatePollGroup := 2
    AcceptConnection := fun _ => .k_EResultOK
    SetConnectionPollGroup := fun _ _ => true
    GetConnectionInfo := fun _ => "peer"
    CloseConnection := fun _ => true
    SendMessageToConnection := fun _ _ _ _ => .k_EResultOK }

/-- A transport library that refuses to accept incoming links. -/
def apiNoAccept : ISteamNetworkingSockets :=
  { api with AcceptConnection := fun _ => .other 3 }

/-- A notification for connection `h` entering `state` from `old`. -/
def notify (h : HSteamNetConnection) (old state : ESteamNetworkingConnectionState) :
    SteamNetConnectionStatusChangedCallback_t :=
  { m_hConn := h
    m_info := { m_eState := state, m_szEndDebug := "end", m_szConnectionDescription := "peer" }
    m_eOldState := old }

/-- A listening server with all three handlers registered (identities 10, 11, 12). -/
def server : Server := Server.listening 8192 1 2 (some 10) (some 11) (some 12)

/-- The listening server after it accepted connection 7. -/
def serverWith7 : Server :=
  { server with m_ConnectedClients := [(7, { ID := 7, ConnectionDesc := "peer" })] }

/-- The listening server right after the notification that made it accept link 7. -/
def serverAccepted7 : Server :=
  { serverWith7 with
    trace :=
      [.AcceptConnection 7, .SetConnectionPollGroup 7 2, .GetConnectionInfo 7,
       .Server_ClientConnectedCallback 11 { ID := 7, ConnectionDesc := "peer" }] }

/-- The listening server holding connections 7 and 9. -/
def serverWith7and9 : Server :=
  { server with
    m_ConnectedClients :=
      [(7, { ID := 7, ConnectionDesc := "peer" }), (9, { ID := 9, ConnectionDesc := "peer" })] }

/-- A message of `size` bytes from connection `h`. -/
def message (h : HSteamNetConnection) (size : Int) (n : Nat) : SteamNetworkingMessage_t :=
  { m_conn := h, m_pData := List.replicate size.toNat 0, m_cbSize := size, m_nMessageNumber := n }

/-- A client inside its poll loop, still connecting on handle 5. -/
def clientConnecting : Client :=
  { Client.new with
    m_NetworkThread := true
    m_ConnectionStatus := .Connecting
    m_ServerAddress := "127.0.0.1:8192"
    m_Running := true
    m_Interface := true
    m_Connection := 5
    s_Instance := true
    pump := .polling }

/-- A fresh client right after `ConnectToServer("127.0.0.1:8192")` spawned its thread:
the thread is joinable and has not run yet, so the running flag is still clear. -/
def clientSpawned : Client :=
  { Client.new with
    m_NetworkThread := true
    m_ServerAddress := "127.0.0.1:8192"
    pump := .starting }

/-- One pump cycle in which nothing arrives and nobody asks the pump to stop. -/
def quietCycle : PumpCycle :=
  { replies := [], pending := [], stopRequested := false }

/-- One pump cycle in which the peer closes the established link on handle 5. -/
def peerCloses : PumpCycle :=
  { replies := [], pending := [notify 5 .Connected .ClosedByPeer], stopRequested := false }

/-- One pump cycle in which the link reports Connected and, while the pump sleeps, the
application calls `Disconnect`. -/
def connectThenStop : PumpCycle :=
  { replies := [], pending := [notify 5 .Connecting .Connected], stopRequested := true }

/-- A transport library that cannot parse the address "not-an-address". -/
def apiStrict : ISteamNetworkingSockets :=
  { api with ParseString := fun a => a != "not-an-address" }

/-- A fresh client whose thread has just been started for the address
"not-an-address". -/
def clientBadAddress : Client :=
  { Client.new with
    m_NetworkThread := true
    m_ServerAddress := "not-an-address"
    pump := .starting }

/-- A client inside its poll loop with an established session on handle 5 and all
three handlers registered (identities 20, 21, 22). -/
def clientConnected : Client :=
  { clientConnecting with
    m_DataReceivedCallback := some 20
    m_ServerConnectedCallback := some 21
    m_ServerDisconnectedCallback := some 22
    m_ConnectionStatus := .Connected }

/-- A script of two pump cycles: in the first the pending link 7 is reported, in the
second the receive call answers with the negative count -1. -/
def acceptThenReceiveError : List PumpCycle :=
  [{ replies := [], pending := [notify 7 .None .Connecting], stopRequested := false },
   { replies := [{ messageCount := -1, incomingMessage := none }], pending := [],
     stopRequested := false }]

end Examples

end Utopia

namespace Utopia

/-! ## Facts about the registry operations -/

theorem StdMap.find_cons (k0 : HSteamNetConnection) (v0 : ClientInfo) (m : StdMap)
    (k : HSteamNetConnection) :
    StdMap.find ((k0, v0) :: m) k = if k = k0 then some v0 else StdMap.find m k := by
  unfold StdMap.find
  by_cases h : k = k0
  · subst h; simp [List.lookup]
  · have hb : (k == k0) = false := by simpa using h
    simp [List.lookup, hb, h]

theorem StdMap.find_eq_none_iff (m : StdMap) (k : HSteamNetConnection) :
    StdMap.find m k = none ↔ k ∉ StdMap.keys m := by
  induction m with
  | nil => simp [StdMap.find, StdMap.keys]
  | cons p rest ih =>
    obtain ⟨k0, v0⟩ := p
    rw [StdMap.find_cons]
    by_cases h : k = k0
    · simp [h, StdMap.keys]
    · simp only [if_neg h, ih]
      simp [StdMap.keys, h]

theorem StdMap.find_some_mem (m : StdMap) (k : HSteamNetConnection) (v : ClientInfo)
    (h : StdMap.find m k = some v) : (k, v) ∈ m := by
  induction m with
  | nil => simp [StdMap.find] at h
  | cons p rest ih =>
    obtain ⟨k0, v0⟩ := p
    rw [StdMap.find_cons] at h
    by_cases hk : k = k0
    · simp only [if_pos hk] at h
      cases h
      simp [hk]
    · simp only [if_neg hk] at h
      exact List.mem_cons_of_mem _ (ih h)

theorem StdMap.mem_keys_of_find (m : StdMap) (k : HSteamNetConnection) (v : ClientInfo)
    (h : StdMap.find m k = some v) : k ∈ StdMap.keys m := by
  by_contra hk
  rw [← StdMap.find_eq_none_iff] at hk
  rw [hk] at h
  cases h

theorem StdMap.not_mem_keys_erase (m : StdMap) (k : HSteamNetConnection) :
    k ∉ StdMap.keys (StdMap.erase m k) := by
  simp [StdMap.keys, StdMap.erase, List.mem_filter]

theorem StdMap.mem_keys_erase_ne (m : StdMap) (k k1 : HSteamNetConnection) (h : k1 ≠ k) :
    k1 ∈ StdMap.keys (StdMap.erase m k) ↔ k1 ∈ StdMap.keys m := by
  simp only [StdMap.keys, StdMap.erase, List.mem_map, List.mem_filter]
  constructor
  · rintro ⟨p, ⟨hp, _⟩, rfl⟩
    exact ⟨p, hp, rfl⟩
  · rintro ⟨p, hp, rfl⟩
    exact ⟨p, ⟨hp, by simpa using h⟩, rfl⟩

theorem StdMap.find_erase_ne (m : StdMap) (k k1 : HSteamNetConnection) (h : k1 ≠ k) :
    StdMap.find (StdMap.erase m k) k1 = StdMap.find m k1 := by
  induction m with
  | nil => rfl
  | cons p rest ih =>
    obtain ⟨k0, v0⟩ := p
    by_cases h0 : k0 = k
    · have hne : k1 ≠ k0 := by rw [h0]; exact h
      have he : StdMap.erase ((k0, v0) :: rest) k = StdMap.erase rest k := by
        simp [StdMap.erase, h0]
      rw [he, ih, StdMap.find_cons, if_neg hne]
    · have he : StdMap.erase ((k0, v0) :: rest) k = (k0, v0) :: StdMap.erase rest k := by
        simp [StdMap.erase, h0]
      rw [he, StdMap.find_cons, StdMap.find_cons, ih]

theorem StdMap.mem_erase_of_mem (m : StdMap) (k : HSteamNetConnection)
    (p : HSteamNetConnection × ClientInfo) (h : p ∈ StdMap.erase m k) : p ∈ m := by
  simp only [StdMap.erase, List.mem_filter] at h
  exact h.1

theorem StdMap.find_insert_self (m : StdMap) (k : HSteamNetConnection) (v : ClientInfo) :
    StdMap.find (StdMap.insert m k v) k = some v := by
  induction m with
  | nil => simp [StdMap.insert, StdMap.find_cons]
  | cons p rest ih =>
    obtain ⟨k0, v0⟩ := p
    unfold StdMap.insert
    by_cases h1 : k < k0
    · simp [h1, StdMap.find_cons]
    · by_cases h2 : k = k0
      · simp [h2, StdMap.find_cons]
      · simp [h1, h2, StdMap.find_cons, ih]

theorem StdMap.find_insert_ne (m : StdMap) (k k1 : HSteamNetConnection) (v : ClientInfo)
    (h : k1 ≠ k) : StdMap.find (StdMap.insert m k v) k1 = StdMap.find m k1 := by
  induction m with
  | nil => simp [StdMap.insert, StdMap.find_cons, h, StdMap.find]
  | cons p rest ih =>
    obtain ⟨k0, v0⟩ := p
    unfold StdMap.insert
    by_cases h1 : k < k0
    · simp [h1, StdMap.find_cons, h]
    · by_cases h2 : k = k0
      · subst h2
        simp [StdMap.find_cons, h]
      · simp [h1, h2, StdMap.find_cons, ih]

theorem StdMap.mem_insert (m : StdMap) (k : HSteamNetConnection) (v : ClientInfo)
    (p : HSteamNetConnection × ClientInfo) (h : p ∈ StdMap.insert m k v) :
    p = (k, v) ∨ p ∈ m := by
  induction m with
  | nil => simpa [StdMap.insert] using h
  | cons q rest ih =>
    obtain ⟨k0, v0⟩ := q
    unfold StdMap.insert at h
    by_cases h1 : k < k0
    · simp only [if_pos h1, List.mem_cons] at h
      rcases h with h | h | h
      · exact Or.inl h
      · exact Or.inr (by simp [h])
      · exact Or.inr (List.mem_cons_of_mem _ h)
    · by_cases h2 : k = k0
      · simp only [if_neg h1, if_pos h2, List.mem_cons] at h
        rcases h with h | h
        · exact Or.inl h
        · exact Or.inr (List.mem_cons_of_mem _ h)
      · simp only [if_neg h1, if_neg h2, List.mem_cons] at h
        rcases h with h | h
        · exact Or.inr (by simp [h])
        · rcases ih h with h | h
          · exact Or.inl h
          · exact Or.inr (List.mem_cons_of_mem _ h)

theorem StdMap.mem_keys_insert (m : StdMap) (k k1 : HSteamNetConnection) (v : ClientInfo) :
    k1 ∈ StdMap.keys (StdMap.insert m k v) ↔ k1 = k ∨ k1 ∈ StdMap.keys m := by
  by_cases h : k1 = k
  · subst h
    simp only [true_or, iff_true]
    exact StdMap.mem_keys_of_find _ _ v (StdMap.find_insert_self m k1 v)
  · simp only [h, false_or]
    rw [← not_iff_not, ← StdMap.find_eq_none_iff, ← StdMap.find_eq_none_iff,
      StdMap.find_insert_ne m k k1 v h]

end Utopia

namespace Utopia

/-! ## Server: equations for the branches of the status handler -/

theorem Server.OnConnectionStatusChanged_closing (api : ISteamNetworkingSockets) (s : Server)
    (status : SteamNetConnectionStatusChangedCallback_t)
    (hState : status.m_info.m_eState = .ClosedByPeer
      ∨ status.m_info.m_eState = .ProblemDetectedLocally) :
    Server.OnConnectionStatusChanged api s status = Server.onClosed s status := by
  rcases hState with h | h <;> simp [Server.OnConnectionStatusChanged, h]

theorem Server.OnConnectionStatusChanged_connecting (api : ISteamNetworkingSockets)
    (s : Server) (status : SteamNetConnectionStatusChangedCallback_t)
    (hState : status.m_info.m_eState = .Connecting) :
    Server.OnConnectionStatusChanged api s status = Server.onConnecting api s status := by
  simp [Server.OnConnectionStatusChanged, hState]

theorem Server.erased_registry (s : Server) (hConn : HSteamNetConnection)
    (client : ClientInfo) :
    (Server.afterDisconnect s hConn client).m_ConnectedClients
      = s.m_ConnectedClients.erase hConn := rfl

theorem Server.onClosed_absent (s : Server)
    (status : SteamNetConnectionStatusChangedCallback_t)
    (hFind : s.m_ConnectedClients.find status.m_hConn = none) (hIface : s.m_Interface = true) :
    Server.onClosed s status = some (s.emit (Server.closeEvent status.m_hConn)) := by
  unfold Server.onClosed
  by_cases hOld : status.m_eOldState = .Connected <;> simp [hOld, hFind, hIface]

theorem Server.onClosed_not_connected (s : Server)
    (status : SteamNetConnectionStatusChangedCallback_t)
    (hOld : status.m_eOldState ≠ .Connected) (hIface : s.m_Interface = true) :
    Server.onClosed s status = some (s.emit (Server.closeEvent status.m_hConn)) := by
  unfold Server.onClosed
  simp [hOld, hIface]

theorem Server.onClosed_present (s : Server)
    (status : SteamNetConnectionStatusChangedCallback_t) (client : ClientInfo)
    (hOld : status.m_eOldState = .Connected)
    (hFind : s.m_ConnectedClients.find status.m_hConn = some client)
    (hIface : s.m_Interface = true) :
    Server.onClosed s status
      = some ((Server.afterDisconnect s status.m_hConn client).emit
          (Server.closeEvent status.m_hConn)) := by
  unfold Server.onClosed
  cases hCb : s.m_ClientDisconnectedCallback <;>
    simp [hOld, hFind, hIface, hCb, Server.emit, Server.afterDisconnect]

/-! ## Client: closing notifications -/

/-- C1 (evaluation at the failing input): a client that is still connecting on
handle 5 receives the notification "closed by peer, old state Connecting"; the status
`Client::OnConnectionStatusChanged` leaves behind is `Disconnected`, not
`FailedToConnect`: the store of `FailedToConnect` is overwritten before the handler
returns. -/
theorem C1_close_while_connecting_leaves_Disconnected :
    (Client.OnConnectionStatusChanged Examples.clientConnecting
        (Examples.notify 5 .Connecting .ClosedByPeer)).GetConnectionStatus
      = ConnectionStatus.Disconnected
    ∧ (Client.OnConnectionStatusChanged Examples.clientConnecting
        (Examples.notify 5 .Connecting .ClosedByPeer)).GetConnectionStatus
      ≠ ConnectionStatus.FailedToConnect := by
  decide

/-! ## Server: closing notifications -/

/-- C2 (counterexample): the listening server accepts the pending link 7, which
creates its registry entry, and the link then fails before it ever reached Connected
(old state Connecting).  After the closing notification 7 is still a key of the
registry. -/
theorem C2_entry_survives_close_before_connected :
    (Server.runOps Examples.api Examples.server
        [.OnConnectionStatusChanged (Examples.notify 7 .None .Connecting),
         .OnConnectionStatusChanged (Examples.notify 7 .Connecting .ProblemDetectedLocally)]).map
      (fun s => s.GetConnectedClients.keys) = some [7] := by
  decide

/-- C2 (amended): for a closed-by-peer or problem-detected-locally notification for
handle h, `Server::OnConnectionStatusChanged` returns; if the old state was Connected
then h is not a key of the registry afterwards, and if the old state was anything else
the registry is exactly what it was before. -/
theorem C2_close_removes_entry_only_after_connected (api : ISteamNetworkingSockets)
    (s : Server) (status : SteamNetConnectionStatusChangedCallback_t)
    (hState : status.m_info.m_eState = .ClosedByPeer
      ∨ status.m_info.m_eState = .ProblemDetectedLocally)
    (hIface : s.m_Interface = true) :
    ∃ s1, Server.OnConnectionStatusChanged api s status = some s1
      ∧ (status.m_eOldState = .Connected → status.m_hConn ∉ s1.GetConnectedClients.keys)
      ∧ (status.m_eOldState ≠ .Connected → s1.GetConnectedClients = s.GetConnectedClients) := by
  rw [Server.OnConnectionStatusChanged_closing api s status hState]
  by_cases hOld : status.m_eOldState = .Connected
  · cases hFind : s.m_ConnectedClients.find status.m_hConn with
    | none =>
      rw [Server.onClosed_absent s status hFind hIface]
      refine ⟨_, rfl, fun _ => (StdMap.find_eq_none_iff _ _).mp hFind, fun h => absurd hOld h⟩
    | some client =>
      rw [Server.onClosed_present s status client hOld hFind hIface]
      refine ⟨_, rfl, fun _ => ?_, fun h => absurd hOld h⟩
      simp only [Server.GetConnectedClients, Server.emit, Server.erased_registry]
      exact StdMap.not_mem_keys_erase _ _
  · rw [Server.onClosed_not_connected s status hOld hIface]
    exact ⟨_, rfl, fun h => absurd h hOld, fun _ => rfl⟩

/-- C2 (witness): the amended statement at the listening server holding connection 7
and the notification that 7, connected before, was closed by its peer. -/
theorem C2_close_removes_entry_only_after_connected_witness :
    ∃ s1, Server.OnConnectionStatusChanged Examples.api Examples.serverWith7
        (Examples.notify 7 .Connected .ClosedByPeer) = some s1
      ∧ ((Examples.notify 7 .Connected .ClosedByPeer).m_eOldState = .Connected →
          (Examples.notify 7 .Connected .ClosedByPeer).m_hConn ∉ s1.GetConnectedClients.keys)
      ∧ ((Examples.notify 7 .Connected .ClosedByPeer).m_eOldState ≠ .Connected →
          s1.GetConnectedClients = Examples.serverWith7.GetConnectedClients) :=
  C2_close_removes_entry_only_after_connected Examples.api Examples.serverWith7
    (Examples.notify 7 .Connected .ClosedByPeer) (Or.inl rfl) rfl

/-- C3: a closed-by-peer or problem-detected-locally notification with old state
Connected for a handle h whose entry `client` is in the registry, with a
client-disconnected handler f registered: the handler returns a state whose new trace
is exactly "f invoked with `client`, then the adapter close of h"; the registry the
handler invocation sees still maps h to `client` (the erase comes after it); afterwards
h is not a key and every other key maps to what it mapped to before. -/
theorem C3_disconnect_handler_then_erase_then_close (api : ISteamNetworkingSockets)
    (s : Server) (status : SteamNetConnectionStatusChangedCallback_t) (client : ClientInfo)
    (f : HandlerId)
    (hState : status.m_info.m_eState = .ClosedByPeer
      ∨ status.m_info.m_eState = .ProblemDetectedLocally)
    (hOld : status.m_eOldState = .Connected)
    (hIface : s.m_Interface = true)
    (hFind : s.GetConnectedClients.find status.m_hConn = some client)
    (hCb : s.m_ClientDisconnectedCallback = some f) :
    ∃ s1 registryAtCall, Server.OnConnectionStatusChanged api s status = some s1
      ∧ s1.trace = s.trace ++
          [Event.Server_ClientDisconnectedCallback f client registryAtCall,
           Event.CloseConnection status.m_hConn 0 none false]
      ∧ registryAtCall.find status.m_hConn = some client
      ∧ status.m_hConn ∉ s1.GetConnectedClients.keys
      ∧ ∀ k, k ≠ status.m_hConn →
          s1.GetConnectedClients.find k = s.GetConnectedClients.find k := by
  rw [Server.OnConnectionStatusChanged_closing api s status hState,
    Server.onClosed_present s status client hOld hFind hIface]
  refine ⟨_, s.m_ConnectedClients, rfl, ?_, hFind, ?_, ?_⟩
  · simp [Server.afterDisconnect, hCb, Server.emit, Server.closeEvent]
  · simp only [Server.GetConnectedClients, Server.emit, Server.erased_registry]
    exact StdMap.not_mem_keys_erase _ _
  · intro k hk
    simp only [Server.GetConnectedClients, Server.emit, Server.erased_registry]
    exact StdMap.find_erase_ne _ _ _ hk

/-- C3 (witness): the statement at the listening server holding connection 7, whose
peer closes the established link. -/
theorem C3_disconnect_handler_then_erase_then_close_witness :
    ∃ s1 registryAtCall,
      Server.OnConnectionStatusChanged Examples.api Examples.serverWith7
        (Examples.notify 7 .Connected .ClosedByPeer) = some s1
      ∧ s1.trace = Examples.serverWith7.trace ++
          [Event.Server_ClientDisconnectedCallback 12 { ID := 7, ConnectionDesc := "peer" }
             registryAtCall,
           Event.CloseConnection 7 0 none false]
      ∧ registryAtCall.find 7 = some { ID := 7, ConnectionDesc := "peer" }
      ∧ 7 ∉ s1.GetConnectedClients.keys
      ∧ ∀ k, k ≠ 7 →
          s1.GetConnectedClients.find k = Examples.serverWith7.GetConnectedClients.find k :=
  C3_disconnect_handler_then_erase_then_close Examples.api Examples.serverWith7
    (Examples.notify 7 .Connected .ClosedByPeer) { ID := 7, ConnectionDesc := "peer" } 12
    (Or.inl rfl) rfl rfl (by decide) rfl

/-! ## Server: pending incoming links -/

/-- C4: a Connecting notification for handle h, handled with a non-null adapter.
If accept and poll-group assignment both succeed, the registry afterwards maps h to
the ClientInfo with ID = h and the adapter's connection description, every other key
maps to what it mapped to before, and with a client-connected handler f registered the
new trace is accept, poll-group assignment, description query and exactly one
invocation of f with that entry.  If either step fails, the registry and the running
flag are unchanged and the new trace is the attempted steps followed by exactly one
close of h, with no handler invocation. -/
theorem C4_connecting_accepts_or_closes (api : ISteamNetworkingSockets) (s : Server)
    (status : SteamNetConnectionStatusChangedCallback_t)
    (hState : status.m_info.m_eState = .Connecting)
    (hIface : s.m_Interface = true) :
    ∃ s1, Server.OnConnectionStatusChanged api s status = some s1
      ∧ ((api.AcceptConnection status.m_hConn = .k_EResultOK
            ∧ api.SetConnectionPollGroup status.m_hConn s.m_PollGroup = true) →
          s1.GetConnectedClients.find status.m_hConn
              = some { ID := status.m_hConn
                       ConnectionDesc := api.GetConnectionInfo status.m_hConn }
          ∧ (∀ k, k ≠ status.m_hConn →
              s1.GetConnectedClients.find k = s.GetConnectedClients.find k)
          ∧ ∀ f, s.m_ClientConnectedCallback = some f →
              s1.trace = s.trace ++
                [Event.AcceptConnection status.m_hConn,
                 Event.SetConnectionPollGroup status.m_hConn s.m_PollGroup,
                 Event.GetConnectionInfo status.m_hConn,
                 Event.Server_ClientConnectedCallback f
                   { ID := status.m_hConn
                     ConnectionDesc := api.GetConnectionInfo status.m_hConn }])
      ∧ (¬ (api.AcceptConnection status.m_hConn = .k_EResultOK
            ∧ api.SetConnectionPollGroup status.m_hConn s.m_PollGroup = true) →
          s1.GetConnectedClients = s.GetConnectedClients
          ∧ s1.m_Running = s.m_Running
          ∧ s1.trace = s.trace ++
              (if api.AcceptConnection status.m_hConn = .k_EResultOK then
                [Event.AcceptConnection status.m_hConn,
                 Event.SetConnectionPollGroup status.m_hConn s.m_PollGroup,
                 Event.CloseConnection status.m_hConn 0 none false]
               else
                [Event.AcceptConnection status.m_hConn,
                 Event.CloseConnection status.m_hConn 0 none false])) := by
  rw [Server.OnConnectionStatusChanged_connecting api s status hState]
  unfold Server.onConnecting
  by_cases hAcc : api.AcceptConnection status.m_hConn = .k_EResultOK
  · by_cases hGrp : api.SetConnectionPollGroup status.m_hConn s.m_PollGroup = true
    · cases hCb : s.m_ClientConnectedCallback with
      | none =>
        refine ⟨_, by simp [hIface, hAcc, hGrp, hCb, Server.emit]; rfl, ?_, ?_⟩
        · intro _
          refine ⟨StdMap.find_insert_self _ _ _, ?_, ?_⟩
          · intro k hk
            exact StdMap.find_insert_ne _ _ _ _ hk
          · intro f hf
            cases hf
        · intro h
          exact absurd ⟨hAcc, hGrp⟩ h
      | some g =>
        refine ⟨_, by simp [hIface, hAcc, hGrp, hCb, Server.emit]; rfl, ?_, ?_⟩
        · intro _
          refine ⟨StdMap.find_insert_self _ _ _, ?_, ?_⟩
          · intro k hk
            exact StdMap.find_insert_ne _ _ _ _ hk
          · intro f hf
            cases hf
            simp
        · intro h
          exact absurd ⟨hAcc, hGrp⟩ h
    · have hGrp1 : api.SetConnectionPollGroup status.m_hConn s.m_PollGroup = false := by
        simpa using hGrp
      refine ⟨_, by simp [hIface, hAcc, hGrp1, Server.emit]; rfl, ?_, ?_⟩
      · intro h
        exact absurd h.2 hGrp
      · intro _
        refine ⟨rfl, rfl, ?_⟩
        simp [hAcc, Server.closeEvent]
  · refine ⟨_, by simp [hIface, hAcc, Server.emit]; rfl, ?_, ?_⟩
    · intro h
      exact absurd h.1 hAcc
    · intro _
      refine ⟨rfl, rfl, ?_⟩
      simp [hAcc, Server.closeEvent]

/-- C4 (witness): the statement at the listening server and a pending link 7, on a
transport library that refuses the accept. -/
theorem C4_connecting_accepts_or_closes_witness :
    ∃ s1, Server.OnConnectionStatusChanged Examples.apiNoAccept Examples.server
        (Examples.notify 7 .None .Connecting) = some s1
      ∧ ((Examples.apiNoAccept.AcceptConnection 7 = .k_EResultOK
            ∧ Examples.apiNoAccept.SetConnectionPollGroup 7 Examples.server.m_PollGroup = true) →
          s1.GetConnectedClients.find 7
              = some { ID := 7, ConnectionDesc := Examples.apiNoAccept.GetConnectionInfo 7 }
          ∧ (∀ k, k ≠ 7 →
              s1.GetConnectedClients.find k = Examples.server.GetConnectedClients.find k)
          ∧ ∀ f, Examples.server.m_ClientConnectedCallback = some f →
              s1.trace = Examples.server.trace ++
                [Event.AcceptConnection 7,
                 Event.SetConnectionPollGroup 7 Examples.server.m_PollGroup,
                 Event.GetConnectionInfo 7,
                 Event.Server_ClientConnectedCallback f
                   { ID := 7, ConnectionDesc := Examples.apiNoAccept.GetConnectionInfo 7 }])
      ∧ (¬ (Examples.apiNoAccept.AcceptConnection 7 = .k_EResultOK
            ∧ Examples.apiNoAccept.SetConnectionPollGroup 7 Examples.server.m_PollGroup = true) →
          s1.GetConnectedClients = Examples.server.GetConnectedClients
          ∧ s1.m_Running = Examples.server.m_Running
          ∧ s1.trace = Examples.server.trace ++
              (if Examples.apiNoAccept.AcceptConnection 7 = .k_EResultOK then
                [Event.AcceptConnection 7,
                 Event.SetConnectionPollGroup 7 Examples.server.m_PollGroup,
                 Event.CloseConnection 7 0 none false]
               else
                [Event.AcceptConnection 7,
                 Event.CloseConnection 7 0 none false])) :=
  C4_connecting_accepts_or_closes Examples.apiNoAccept Examples.server
    (Examples.notify 7 .None .Connecting) rfl rfl

/-! ## Server: the registry against the handler invocations -/

theorem connectedPending_snoc (id : ClientID) (tr : List Event) (e : Event) :
    connectedPending id (tr ++ [e]) = lifecycleStep id (connectedPending id tr) e := by
  simp [connectedPending, List.foldl_append]

theorem lifecycleStep_other (id : ClientID) (b : Bool) (e : Event)
    (h : e.isLifecycle = false) : lifecycleStep id b e = b := by
  cases e <;> simp_all [lifecycleStep, Event.isLifecycle]

theorem Server.SameLifecycle.refl (s : Server) : Server.SameLifecycle s s :=
  ⟨rfl, rfl, fun _ => rfl⟩

theorem Server.SameLifecycle.trans {s s1 s2 : Server} (h1 : Server.SameLifecycle s s1)
    (h2 : Server.SameLifecycle s1 s2) : Server.SameLifecycle s s2 :=
  ⟨h2.1.trans h1.1, h2.2.1.trans h1.2.1, fun id => (h2.2.2 id).trans (h1.2.2 id)⟩

theorem Server.SameLifecycle.emit (s : Server) (e : Event) (h : e.isLifecycle = false) :
    Server.SameLifecycle s (s.emit e) := by
  refine ⟨rfl, rfl, fun id => ?_⟩
  simp only [Server.emit]
  rw [connectedPending_snoc, lifecycleStep_other id _ e h]

theorem Server.SameLifecycle.stop (s : Server) :
    Server.SameLifecycle s { s with m_Running := false } :=
  ⟨rfl, rfl, fun _ => rfl⟩

theorem Server.SameLifecycle.deliver (s : Server) (client : ClientInfo)
    (msg : SteamNetworkingMessage_t) : Server.SameLifecycle s (Server.deliver s client msg) := by
  unfold Server.deliver
  cases s.m_DataReceivedCallback with
  | none => exact Server.SameLifecycle.emit _ _ rfl
  | some f =>
    by_cases hSize : msg.m_cbSize > 0
    · simp only [hSize, if_true]
      exact (Server.SameLifecycle.emit s
        (.Server_DataReceivedCallback f client (Buffer.ofMessage msg)) rfl).trans
        (Server.SameLifecycle.emit _ (.Release msg) rfl)
    · simp only [hSize, if_false]
      exact Server.SameLifecycle.emit _ _ rfl

theorem Server.SameLifecycle.PollIncomingMessages (replies : List ReceiveReply) :
    ∀ s s1 : Server, Server.PollIncomingMessages s replies = some s1 →
      Server.SameLifecycle s s1 := by
  induction replies with
  | nil =>
    intro s s1 h
    unfold Server.PollIncomingMessages at h
    by_cases hRun : s.m_Running = true
    · by_cases hIface : s.m_Interface = true
      · simp only [hRun, hIface, if_true, Option.some.injEq] at h
        subst h
        exact Server.SameLifecycle.emit _ _ rfl
      · simp [hRun, hIface] at h
    · simp only [hRun, Bool.false_eq_true, if_false, Option.some.injEq] at h
      subst h
      exact Server.SameLifecycle.refl _
  | cons r rest ih =>
    intro s s1 h
    unfold Server.PollIncomingMessages at h
    by_cases hRun : s.m_Running = true
    · by_cases hIface : s.m_Interface = true
      · have hRecv := Server.SameLifecycle.emit s (.ReceiveMessagesOnPollGroup s.m_PollGroup) rfl
        simp only [hRun, hIface, if_true] at h
        by_cases h0 : r.messageCount = 0
        · simp only [h0, if_true, Option.some.injEq] at h
          subst h
          exact hRecv
        · by_cases hNeg : r.messageCount < 0
          · simp only [h0, hNeg, if_true, if_false, Option.some.injEq] at h
            subst h
            exact hRecv.trans (Server.SameLifecycle.stop _)
          · simp only [h0, hNeg, if_false] at h
            cases hMsg : r.incomingMessage with
            | none => simp [hMsg] at h
            | some m =>
              simp only [hMsg] at h
              by_cases h1 : r.messageCount = 1
              · simp only [h1, if_true] at h
                cases hFind : StdMap.find (s.emit (.ReceiveMessagesOnPollGroup
                    s.m_PollGroup)).m_ConnectedClients m.m_conn with
                | none =>
                  simp only [hFind] at h
                  exact (hRecv.trans (Server.SameLifecycle.emit _ (.Release m) rfl)).trans
                    (ih _ _ h)
                | some client =>
                  simp only [hFind] at h
                  exact (hRecv.trans (Server.SameLifecycle.deliver _ _ _)).trans (ih _ _ h)
              · simp [h1] at h
      · simp [hRun, hIface] at h
    · simp only [hRun, Bool.false_eq_true, if_false, Option.some.injEq] at h
      subst h
      exact Server.SameLifecycle.refl _

theorem Server.SameLifecycle.SendBufferToClient (api : ISteamNetworkingSockets) (s : Server)
    (clientID : ClientID) (buffer : Buffer) (reliable : Bool) :
    Server.SameLifecycle s (Server.SendBufferToClient api s clientID buffer reliable) := by
  unfold Server.SendBufferToClient
  by_cases hIface : s.m_Interface = true
  · simp only [hIface, if_true, ite_self]
    exact Server.SameLifecycle.emit _ _ rfl
  · simp only [hIface, Bool.false_eq_true, if_false]
    exact Server.SameLifecycle.refl _

theorem Server.SameLifecycle.sendLoop (api : ISteamNetworkingSockets) (buffer : Buffer)
    (excludeClientID : ClientID) (reliable : Bool) (m : StdMap) :
    ∀ s : Server, Server.SameLifecycle s
      (m.foldl (fun acc p => if p.1 = excludeClientID then acc
        else Server.SendBufferToClient api acc p.1 buffer reliable) s) := by
  induction m with
  | nil => intro s; exact Server.SameLifecycle.refl _
  | cons p rest ih =>
    intro s
    simp only [List.foldl_cons]
    by_cases hEx : p.1 = excludeClientID
    · simp only [hEx, if_true]
      exact ih s
    · simp only [hEx, if_false]
      exact (Server.SameLifecycle.SendBufferToClient api s p.1 buffer reliable).trans (ih _)

theorem Server.SameLifecycle.KickClient (api : ISteamNetworkingSockets) (s : Server)
    (clientID : ClientID) : Server.SameLifecycle s (Server.KickClient api s clientID) := by
  unfold Server.KickClient
  by_cases hIface : s.m_Interface = true
  · simp only [hIface, if_true, ite_self]
    exact Server.SameLifecycle.emit _ _ rfl
  · simp only [hIface, Bool.false_eq_true, if_false]
    exact Server.SameLifecycle.refl _

theorem Server.Inv.of_sameLifecycle {s s1 : Server} (hInv : Server.Inv s)
    (h : Server.SameLifecycle s s1) : Server.Inv s1 := by
  obtain ⟨hReg, _, hTr⟩ := h
  refine ⟨?_, ?_⟩
  · rw [hReg]; exact hInv.1
  · intro id hid
    rw [hReg]
    rw [hTr id] at hid
    exact hInv.2 id hid

theorem Server.onClosed_some_iface (s s1 : Server)
    (status : SteamNetConnectionStatusChangedCallback_t)
    (h : Server.onClosed s status = some s1) : s.m_Interface = true := by
  by_contra hI
  have hF : s.m_Interface = false := by simpa using hI
  unfold Server.onClosed at h
  by_cases hOld : status.m_eOldState = .Connected
  · cases hFind : s.m_ConnectedClients.find status.m_hConn with
    | none => simp [hOld, hFind, hF] at h
    | some client =>
      cases hCb : s.m_ClientDisconnectedCallback <;>
        simp [hOld, hFind, hCb, hF, Server.emit, Server.afterDisconnect] at h
  · simp [hOld, hF] at h

theorem Server.Inv.onClosed (s s1 : Server)
    (status : SteamNetConnectionStatusChangedCallback_t) (hInv : Server.Inv s)
    (hCb : s.m_ClientDisconnectedCallback ≠ none)
    (h : Server.onClosed s status = some s1) :
    Server.Inv s1 ∧ s1.m_ClientDisconnectedCallback = s.m_ClientDisconnectedCallback := by
  have hIface := Server.onClosed_some_iface s s1 status h
  by_cases hOld : status.m_eOldState = .Connected
  · cases hFind : s.m_ConnectedClients.find status.m_hConn with
    | none =>
      rw [Server.onClosed_absent s status hFind hIface] at h
      cases h
      have hS := Server.SameLifecycle.emit s (Server.closeEvent status.m_hConn) rfl
      exact ⟨hInv.of_sameLifecycle hS, hS.2.1⟩
    | some client =>
      rw [Server.onClosed_present s status client hOld hFind hIface] at h
      cases h
      obtain ⟨f, hf⟩ := Option.ne_none_iff_exists'.mp hCb
      have hID : client.ID = status.m_hConn :=
        hInv.1 _ (StdMap.find_some_mem _ _ _ hFind)
      refine ⟨⟨?_, ?_⟩, ?_⟩
      · intro p hp
        exact hInv.1 p (StdMap.mem_erase_of_mem _ _ p hp)
      · intro id hid
        simp only [Server.emit, Server.afterDisconnect, hf, connectedPending_snoc,
          lifecycleStep, Server.closeEvent, hID] at hid
        by_cases hEq : status.m_hConn = id
        · simp [hEq] at hid
        · simp only [hEq, if_false] at hid
          have hNe : id ≠ status.m_hConn := fun h => hEq h.symm
          exact (StdMap.mem_keys_erase_ne _ _ _ hNe).mpr (hInv.2 id hid)
      · simp [Server.emit, Server.afterDisconnect, hf]
  · rw [Server.onClosed_not_connected s status hOld hIface] at h
    cases h
    have hS := Server.SameLifecycle.emit s (Server.closeEvent status.m_hConn) rfl
    exact ⟨hInv.of_sameLifecycle hS, hS.2.1⟩

theorem Server.Inv.onConnecting (api : ISteamNetworkingSockets) (s s1 : Server)
    (status : SteamNetConnectionStatusChangedCallback_t) (hInv : Server.Inv s)
    (h : Server.onConnecting api s status = some s1) :
    Server.Inv s1 ∧ s1.m_ClientDisconnectedCallback = s.m_ClientDisconnectedCallback := by
  unfold Server.onConnecting at h
  by_cases hIface : s.m_Interface = true
  · simp only [hIface, if_true] at h
    have hA := Server.SameLifecycle.emit s (.AcceptConnection status.m_hConn) rfl
    by_cases hAcc : api.AcceptConnection status.m_hConn = .k_EResultOK
    · simp only [hAcc, ne_eq, not_true_eq_false, if_false] at h
      have hB := hA.trans (Server.SameLifecycle.emit _
        (.SetConnectionPollGroup status.m_hConn s.m_PollGroup) rfl)
      by_cases hGrp : api.SetConnectionPollGroup status.m_hConn s.m_PollGroup = true
      · have hGrp1 : api.SetConnectionPollGroup status.m_hConn
            (s.emit (.AcceptConnection status.m_hConn)).m_PollGroup = true := hGrp
        simp only [hGrp1, Bool.true_eq_false, if_false] at h
        have hKeys : ∀ (tr : List Event) (id : ClientID),
            connectedPending id tr = connectedPending id s.trace →
            connectedPending id tr = true →
            id ∈ StdMap.keys (s.m_ConnectedClients.insert status.m_hConn
              { ID := status.m_hConn
                ConnectionDesc := api.GetConnectionInfo status.m_hConn }) := by
          intro tr id hEq hid
          rw [hEq] at hid
          exact (StdMap.mem_keys_insert _ _ _ _).mpr (Or.inr (hInv.2 id hid))
        have hEntries : ∀ p ∈ s.m_ConnectedClients.insert status.m_hConn
              { ID := status.m_hConn
                ConnectionDesc := api.GetConnectionInfo status.m_hConn },
            p.2.ID = p.1 := by
          intro p hp
          rcases StdMap.mem_insert _ _ _ p hp with hp | hp
          · rw [hp]
          · exact hInv.1 p hp
        cases hCbC : s.m_ClientConnectedCallback with
        | none =>
          simp only [Server.emit, hCbC, Option.some.injEq] at h
          subst h
          refine ⟨⟨hEntries, ?_⟩, rfl⟩
          intro id hid
          refine hKeys _ id ?_ hid
          simp [connectedPending, List.foldl_append, lifecycleStep]
        | some g =>
          simp only [Server.emit, hCbC, Option.some.injEq] at h
          subst h
          refine ⟨⟨hEntries, ?_⟩, rfl⟩
          intro id hid
          by_cases hEq : status.m_hConn = id
          · exact (StdMap.mem_keys_insert _ _ _ _).mpr (Or.inl hEq.symm)
          · refine hKeys _ id ?_ hid
            simp [connectedPending, List.foldl_append, lifecycleStep, hEq]
      · have hGrp1 : api.SetConnectionPollGroup status.m_hConn
            (s.emit (.AcceptConnection status.m_hConn)).m_PollGroup = false := by
          simpa using hGrp
        simp only [hGrp1, if_true, Option.some.injEq] at h
        subst h
        have hS := hB.trans (Server.SameLifecycle.emit _ (Server.closeEvent status.m_hConn) rfl)
        exact ⟨hInv.of_sameLifecycle hS, hS.2.1⟩
    · simp only [hAcc, ne_eq, not_false_eq_true, if_true, Option.some.injEq] at h
      subst h
      have hS := hA.trans (Server.SameLifecycle.emit _ (Server.closeEvent status.m_hConn) rfl)
      exact ⟨hInv.of_sameLifecycle hS, hS.2.1⟩
  · simp [hIface] at h

theorem Server.Inv.OnConnectionStatusChanged (api : ISteamNetworkingSockets) (s s1 : Server)
    (status : SteamNetConnectionStatusChangedCallback_t) (hInv : Server.Inv s)
    (hCb : s.m_ClientDisconnectedCallback ≠ none)
    (h : Server.OnConnectionStatusChanged api s status = some s1) :
    Server.Inv s1 ∧ s1.m_ClientDisconnectedCallback = s.m_ClientDisconnectedCallback := by
  cases hState : status.m_info.m_eState with
  | ClosedByPeer =>
    rw [Server.OnConnectionStatusChanged_closing api s status (Or.inl hState)] at h
    exact Server.Inv.onClosed s s1 status hInv hCb h
  | ProblemDetectedLocally =>
    rw [Server.OnConnectionStatusChanged_closing api s status (Or.inr hState)] at h
    exact Server.Inv.onClosed s s1 status hInv hCb h
  | Connecting =>
    rw [Server.OnConnectionStatusChanged_connecting api s status hState] at h
    exact Server.Inv.onConnecting api s s1 status hInv h
  | _ =>
    simp only [Server.OnConnectionStatusChanged, hState, Option.some.injEq] at h
    subst h
    exact ⟨hInv, rfl⟩

theorem Server.Inv.applyOp (api : ISteamNetworkingSockets) (s s1 : Server) (op : ServerOp)
    (hInv : Server.Inv s) (hCb : s.m_ClientDisconnectedCallback ≠ none)
    (hOp : op ≠ ServerOp.teardown) (h : Server.applyOp api s op = some s1) :
    Server.Inv s1 ∧ s1.m_ClientDisconnectedCallback = s.m_ClientDisconnectedCallback := by
  cases op with
  | OnConnectionStatusChanged status =>
    exact Server.Inv.OnConnectionStatusChanged api s s1 status hInv hCb h
  | PollIncomingMessages replies =>
    have hS := Server.SameLifecycle.PollIncomingMessages replies s s1 h
    exact ⟨hInv.of_sameLifecycle hS, hS.2.1⟩
  | SendBufferToClient clientID buffer reliable =>
    simp only [Server.applyOp, Option.some.injEq] at h
    subst h
    have hS := Server.SameLifecycle.SendBufferToClient api s clientID buffer reliable
    exact ⟨hInv.of_sameLifecycle hS, hS.2.1⟩
  | SendBufferToAllClients buffer excludeClientID reliable =>
    simp only [Server.applyOp, Option.some.injEq] at h
    subst h
    have hS := Server.SameLifecycle.sendLoop api buffer excludeClientID reliable
      s.m_ConnectedClients s
    exact ⟨hInv.of_sameLifecycle hS, hS.2.1⟩
  | KickClient clientID =>
    simp only [Server.applyOp, Option.some.injEq] at h
    subst h
    have hS := Server.SameLifecycle.KickClient api s clientID
    exact ⟨hInv.of_sameLifecycle hS, hS.2.1⟩
  | teardown => exact absurd rfl hOp

theorem Server.Inv.runOps (api : ISteamNetworkingSockets) (ops : List ServerOp) :
    ∀ s s1 : Server, Server.Inv s → s.m_ClientDisconnectedCallback ≠ none →
      ServerOp.teardown ∉ ops → Server.runOps api s ops = some s1 → Server.Inv s1 := by
  induction ops with
  | nil =>
    intro s s1 hInv _ _ h
    simp only [Server.runOps, List.foldlM_nil] at h
    cases h
    exact hInv
  | cons op rest ih =>
    intro s s1 hInv hCb hOps h
    simp only [Server.runOps, List.foldlM_cons] at h
    cases hStep : Server.applyOp api s op with
    | none => simp [hStep] at h
    | some s2 =>
      rw [hStep] at h
      have hOp : op ≠ ServerOp.teardown := fun hEq => hOps (by simp [hEq])
      have hRest : ServerOp.teardown ∉ rest := fun hMem => hOps (List.mem_cons_of_mem _ hMem)
      obtain ⟨hInv2, hCb2⟩ := Server.Inv.applyOp api s s2 op hInv hCb hOp hStep
      exact ih s2 s1 hInv2 (by rw [hCb2]; exact hCb) hRest h

/-- C5 (counterexample): the listening server accepts link 7, which invokes the
client-connected handler for 7, and the pump then runs its teardown.  The teardown
clears the registry without invoking the client-disconnected handler: 7 has a
client-connected invocation with no later client-disconnected one, and is not a key
of the registry. -/
theorem C5_teardown_forgets_connected_client :
    (Server.runOps Examples.api Examples.server
        [.OnConnectionStatusChanged (Examples.notify 7 .None .Connecting), .teardown]).map
      (fun s => (connectedPending 7 s.trace, decide (7 ∈ s.GetConnectedClients.keys)))
      = some (true, false) := by
  decide

/-- C5 (amended): start from a server with an empty registry, no client-connected
invocation pending in its trace and a client-disconnected handler registered, and run
any sequence of status-change notifications, message polls, sends and KickClient calls
that contains no teardown.
In the state reached, every identifier whose last client-connected or
client-disconnected handler invocation is a client-connected one is a key of the
registry returned by GetConnectedClients. -/
theorem C5_pending_connected_ids_are_registered (api : ISteamNetworkingSockets)
    (s0 s : Server) (ops : List ServerOp) (id : ClientID)
    (hRegistry : s0.GetConnectedClients = [])
    (hFresh : ∀ i, connectedPending i s0.trace = false)
    (hCb : s0.m_ClientDisconnectedCallback ≠ none)
    (hOps : ServerOp.teardown ∉ ops)
    (hRun : Server.runOps api s0 ops = some s)
    (hPending : connectedPending id s.trace = true) :
    id ∈ s.GetConnectedClients.keys := by
  have hInv0 : Server.Inv s0 := by
    refine ⟨?_, ?_⟩
    · intro p hp
      have hEmpty : s0.m_ConnectedClients = [] := hRegistry
      rw [hEmpty] at hp
      cases hp
    · intro i hi
      rw [hFresh i] at hi
      cases hi
  exact (Server.Inv.runOps api ops s0 s hInv0 hCb hOps hRun).2 id hPending

/-- C5 (witness): the listening server accepts link 7; 7 then has a pending
client-connected invocation and is a key of the registry. -/
theorem C5_pending_connected_ids_are_registered_witness :
    7 ∈ Examples.serverAccepted7.GetConnectedClients.keys :=
  C5_pending_connected_ids_are_registered Examples.api Examples.server
    Examples.serverAccepted7
    [.OnConnectionStatusChanged (Examples.notify 7 .None .Connecting)] 7
    rfl (fun _ => rfl) (by decide) (by decide) (by decide) (by decide)

/-! ## Server: the send path -/

theorem Server.SendBufferToClient_present (api : ISteamNetworkingSockets) (s : Server)
    (clientID : ClientID) (buffer : Buffer) (reliable : Bool) (hIface : s.m_Interface = true) :
    Server.SendBufferToClient api s clientID buffer reliable
      = s.emit (Server.sendEvent buffer reliable clientID) := by
  simp [Server.SendBufferToClient, hIface, Server.sendEvent, Server.sendFlags]

theorem Server.SendBufferToClient_null (api : ISteamNetworkingSockets) (s : Server)
    (clientID : ClientID) (buffer : Buffer) (reliable : Bool) (hIface : s.m_Interface = false) :
    Server.SendBufferToClient api s clientID buffer reliable = s := by
  simp [Server.SendBufferToClient, hIface]

/-- C6 (counterexample): the listening server has an empty registry, so 7 is not a
key; `SendBufferToClient(7, ...)` nevertheless forwards one send for 7 to the
adapter. -/
theorem C6_send_to_unregistered_id_reaches_adapter :
    7 ∉ Examples.server.GetConnectedClients.keys
    ∧ (Server.SendBufferToClient Examples.api Examples.server 7
        { Data := [1, 2, 3], Size := 3 } true).trace
      = [Event.SendMessageToConnection 7 [1, 2, 3] 3 .k_nSteamNetworkingSend_Reliable] := by
  decide

/-- C6 (amended): `Server::SendBufferToClient` returns for every identifier, key of
the registry or not.  With a non-null adapter it forwards exactly one send for that
identifier (the buffer's data, its size as a 32-bit value, the chosen mode) and changes
nothing else; with a null adapter it changes nothing at all.  The only validity check
is the one on the adapter instance. -/
theorem C6_send_checks_only_the_adapter (api : ISteamNetworkingSockets) (s : Server)
    (clientID : ClientID) (buffer : Buffer) (reliable : Bool) :
    (s.m_Interface = true →
      Server.SendBufferToClient api s clientID buffer reliable
        = { s with trace := s.trace ++
              [Event.SendMessageToConnection clientID buffer.Data (buffer.Size % 2 ^ 32)
                (if reliable then .k_nSteamNetworkingSend_Reliable
                 else .k_nSteamNetworkingSend_Unreliable)] })
    ∧ (s.m_Interface = false →
      Server.SendBufferToClient api s clientID buffer reliable = s) := by
  constructor
  · intro hIface
    rw [Server.SendBufferToClient_present api s clientID buffer reliable hIface]
    rfl
  · intro hIface
    exact Server.SendBufferToClient_null api s clientID buffer reliable hIface

/-- C6 (witness): the amended statement at the listening server and the unregistered
identifier 7. -/
theorem C6_send_checks_only_the_adapter_witness :
    Server.SendBufferToClient Examples.api Examples.server 7 { Data := [1, 2, 3], Size := 3 } true
      = { Examples.server with trace := Examples.server.trace ++
            [Event.SendMessageToConnection 7 [1, 2, 3] (3 % 2 ^ 32)
              .k_nSteamNetworkingSend_Reliable] } :=
  (C6_send_checks_only_the_adapter Examples.api Examples.server 7
    { Data := [1, 2, 3], Size := 3 } true).1 rfl

theorem Server.sendLoop_trace (api : ISteamNetworkingSockets) (buffer : Buffer)
    (excludeClientID : ClientID) (reliable : Bool) (m : StdMap) :
    ∀ s : Server, s.m_Interface = true →
      m.foldl (fun acc p => if p.1 = excludeClientID then acc
        else Server.SendBufferToClient api acc p.1 buffer reliable) s
      = { s with
          trace := s.trace ++ List.map (Server.sendEvent buffer reliable)
            ((StdMap.keys m).filter (fun k => k ≠ excludeClientID)) } := by
  induction m with
  | nil => intro s _; simp [StdMap.keys]
  | cons p rest ih =>
    intro s hIface
    simp only [List.foldl_cons]
    by_cases hEx : p.1 = excludeClientID
    · simp only [hEx, if_true]
      rw [ih s hIface]
      simp [StdMap.keys, hEx]
    · simp only [hEx, if_false]
      rw [Server.SendBufferToClient_present api s p.1 buffer reliable hIface,
        ih (s.emit (Server.sendEvent buffer reliable p.1)) hIface]
      simp [StdMap.keys, hEx, Server.emit]

theorem Server.sendEvent_injective (buffer : Buffer) (reliable : Bool) :
    Function.Injective (Server.sendEvent buffer reliable) := by
  intro a b h
  simp only [Server.sendEvent, Event.SendMessageToConnection.injEq] at h
  exact h.1

theorem StdMap.WF.nodup_keys {m : StdMap} (h : StdMap.WF m) : (StdMap.keys m).Nodup :=
  List.Pairwise.imp (fun hab => Nat.ne_of_lt hab) h

/-- C7: with a non-null adapter, `Server::SendBufferToAllClients(buffer, X, reliable)`
leaves the registry unchanged and appends to the trace only adapter sends of the given
payload in the given mode; among them there is exactly one for each registry key
different from X and none for X or for an identifier that is not a key. -/
theorem C7_broadcast_sends_once_per_member_except_excluded (api : ISteamNetworkingSockets)
    (s : Server) (buffer : Buffer) (excludeClientID : ClientID) (reliable : Bool)
    (hIface : s.m_Interface = true) (hMap : s.GetConnectedClients.WF) :
    (Server.SendBufferToAllClients api s buffer excludeClientID reliable).GetConnectedClients
        = s.GetConnectedClients
    ∧ ∃ sends : List Event,
        (Server.SendBufferToAllClients api s buffer excludeClientID reliable).trace
          = s.trace ++ sends
        ∧ (∀ e ∈ sends, ∃ id, e = Event.SendMessageToConnection id buffer.Data
            (buffer.Size % 2 ^ 32)
            (if reliable then .k_nSteamNetworkingSend_Reliable
             else .k_nSteamNetworkingSend_Unreliable))
        ∧ ∀ id, sends.count (Event.SendMessageToConnection id buffer.Data
            (buffer.Size % 2 ^ 32)
            (if reliable then .k_nSteamNetworkingSend_Reliable
             else .k_nSteamNetworkingSend_Unreliable))
          = if id ∈ s.GetConnectedClients.keys ∧ id ≠ excludeClientID then 1 else 0 := by
  unfold Server.SendBufferToAllClients
  rw [Server.sendLoop_trace api buffer excludeClientID reliable s.m_ConnectedClients s hIface]
  refine ⟨rfl, _, rfl, ?_, ?_⟩
  · intro e he
    obtain ⟨id, _, hid⟩ := List.mem_map.mp he
    exact ⟨id, hid.symm⟩
  · intro id
    have hEv : Event.SendMessageToConnection id buffer.Data (buffer.Size % 2 ^ 32)
        (if reliable then .k_nSteamNetworkingSend_Reliable
         else .k_nSteamNetworkingSend_Unreliable) = Server.sendEvent buffer reliable id := rfl
    rw [hEv, List.count_map_of_injective _ _ (Server.sendEvent_injective buffer reliable)]
    have hNodup := StdMap.WF.nodup_keys hMap
    by_cases hMem : id ∈ s.GetConnectedClients.keys ∧ id ≠ excludeClientID
    · rw [if_pos hMem]
      refine List.count_eq_one_of_mem (hNodup.filter _) ?_
      exact List.mem_filter.mpr ⟨hMem.1, by simpa using hMem.2⟩
    · rw [if_neg hMem]
      refine List.count_eq_zero_of_not_mem ?_
      intro hIn
      obtain ⟨h1, h2⟩ := List.mem_filter.mp hIn
      exact hMem ⟨h1, by simpa using h2⟩

/-- C7 (witness): the statement at the listening server holding connections 7 and 9,
with 9 excluded. -/
theorem C7_broadcast_sends_once_per_member_except_excluded_witness :
    (Server.SendBufferToAllClients Examples.api Examples.serverWith7and9
        { Data := [1, 2, 3], Size := 3 } 9 false).GetConnectedClients
        = Examples.serverWith7and9.GetConnectedClients
    ∧ ∃ sends : List Event,
        (Server.SendBufferToAllClients Examples.api Examples.serverWith7and9
          { Data := [1, 2, 3], Size := 3 } 9 false).trace
          = Examples.serverWith7and9.trace ++ sends
        ∧ (∀ e ∈ sends, ∃ id, e = Event.SendMessageToConnection id [1, 2, 3] (3 % 2 ^ 32)
            (if false = true then .k_nSteamNetworkingSend_Reliable
             else .k_nSteamNetworkingSend_Unreliable))
        ∧ ∀ id, sends.count (Event.SendMessageToConnection id [1, 2, 3] (3 % 2 ^ 32)
            (if false = true then .k_nSteamNetworkingSend_Reliable
             else .k_nSteamNetworkingSend_Unreliable))
          = if id ∈ Examples.serverWith7and9.GetConnectedClients.keys ∧ id ≠ 9 then 1 else 0 :=
  C7_broadcast_sends_once_per_member_except_excluded Examples.api Examples.serverWith7and9
    { Data := [1, 2, 3], Size := 3 } 9 false rfl
    (by simp [StdMap.WF, StdMap.keys, Server.GetConnectedClients, Examples.serverWith7and9])

/-! ## Server: draining inbound messages -/

theorem Server.PollIncomingMessages_one (s : Server) (msg : SteamNetworkingMessage_t)
    (rest : List ReceiveReply) (hRun : s.m_Running = true) (hIface : s.m_Interface = true) :
    Server.PollIncomingMessages s (ReceiveReply.one msg :: rest)
      = match s.m_ConnectedClients.find msg.m_conn with
        | none =>
          Server.PollIncomingMessages
            ((s.emit (.ReceiveMessagesOnPollGroup s.m_PollGroup)).emit (.Release msg)) rest
        | some client =>
          Server.PollIncomingMessages
            (Server.deliver (s.emit (.ReceiveMessagesOnPollGroup s.m_PollGroup)) client msg)
            rest := by
  conv_lhs => unfold Server.PollIncomingMessages
  simp only [hRun, hIface, if_true, ReceiveReply.one]
  simp only [one_ne_zero, if_false, show ¬ ((1 : Int) < 0) by decide]
  rfl

/-- C9: while the running flag is set and the adapter is non-null, a polled message
whose connection is not a key of the registry changes the server only by appending the
receive call and one release of that message to the trace (no handler invocation, same
registry, same running flag), and the drain goes on with the replies that follow. -/
theorem C9_unregistered_sender_dropped_and_drain_continues (s : Server)
    (msg : SteamNetworkingMessage_t) (rest : List ReceiveReply)
    (hRun : s.m_Running = true) (hIface : s.m_Interface = true)
    (hAbsent : msg.m_conn ∉ s.GetConnectedClients.keys) :
    Server.PollIncomingMessages s (ReceiveReply.one msg :: rest)
      = Server.PollIncomingMessages
          { s with trace := s.trace ++
              [Event.ReceiveMessagesOnPollGroup s.m_PollGroup, Event.Release msg] }
          rest := by
  have hFind : s.m_ConnectedClients.find msg.m_conn = none :=
    (StdMap.find_eq_none_iff _ _).mpr hAbsent
  rw [Server.PollIncomingMessages_one s msg rest hRun hIface, hFind]
  simp [Server.emit]

/-- C9 (witness): the listening server holding connection 7 polls a message from the
unregistered connection 8 and then a message from 7. -/
theorem C9_unregistered_sender_dropped_and_drain_continues_witness :
    Server.PollIncomingMessages Examples.serverWith7
        [ReceiveReply.one (Examples.message 8 3 1), ReceiveReply.one (Examples.message 7 3 2)]
      = Server.PollIncomingMessages
          { Examples.serverWith7 with trace := Examples.serverWith7.trace ++
              [Event.ReceiveMessagesOnPollGroup Examples.serverWith7.m_PollGroup,
               Event.Release (Examples.message 8 3 1)] }
          [ReceiveReply.one (Examples.message 7 3 2)] :=
  C9_unregistered_sender_dropped_and_drain_continues Examples.serverWith7
    (Examples.message 8 3 1) [ReceiveReply.one (Examples.message 7 3 2)] rfl rfl (by decide)

theorem Server.deliver_eq (s : Server) (f : HandlerId) (client : ClientInfo)
    (msg : SteamNetworkingMessage_t) (hCb : s.m_DataReceivedCallback = some f)
    (hFind : s.m_ConnectedClients.find msg.m_conn = some client) :
    Server.deliver (s.emit (.ReceiveMessagesOnPollGroup s.m_PollGroup)) client msg
      = { s with trace := s.trace ++ Server.messageEvents s f msg } := by
  unfold Server.deliver Server.messageEvents
  by_cases hSize : msg.m_cbSize > 0 <;> simp [Server.emit, hCb, hFind, hSize]

theorem Server.messageEvents_trace (s : Server) (f : HandlerId) (t : List Event) :
    Server.messageEvents { s with trace := t } f = Server.messageEvents s f := rfl

theorem Server.drop_eq (s : Server) (f : HandlerId) (msg : SteamNetworkingMessage_t)
    (hFind : s.m_ConnectedClients.find msg.m_conn = none) :
    (s.emit (.ReceiveMessagesOnPollGroup s.m_PollGroup)).emit (.Release msg)
      = { s with trace := s.trace ++ Server.messageEvents s f msg } := by
  simp [Server.emit, Server.messageEvents, hFind]

theorem Server.PollIncomingMessages_messages (f : HandlerId)
    (msgs : List SteamNetworkingMessage_t) :
    ∀ s : Server, s.m_Running = true → s.m_Interface = true →
      s.m_DataReceivedCallback = some f →
      Server.PollIncomingMessages s (msgs.map ReceiveReply.one)
        = some { s with
            trace := s.trace ++ (msgs.flatMap (Server.messageEvents s f)
              ++ [Event.ReceiveMessagesOnPollGroup s.m_PollGroup]) } := by
  induction msgs with
  | nil =>
    intro s hRun hIface _
    simp [Server.PollIncomingMessages, hRun, hIface, Server.emit]
  | cons msg rest ih =>
    intro s hRun hIface hCb
    have hRest : Server.PollIncomingMessages
        { s with trace := s.trace ++ Server.messageEvents s f msg } (rest.map ReceiveReply.one)
        = some { s with
            trace := s.trace ++ ((msg :: rest).flatMap (Server.messageEvents s f)
              ++ [Event.ReceiveMessagesOnPollGroup s.m_PollGroup]) } := by
      rw [ih { s with trace := s.trace ++ Server.messageEvents s f msg } hRun hIface hCb]
      simp only [Server.messageEvents_trace, List.flatMap_cons, List.append_assoc]
    rw [List.map_cons, Server.PollIncomingMessages_one s msg _ hRun hIface]
    cases hFind : s.m_ConnectedClients.find msg.m_conn with
    | none =>
      simp only []
      rw [Server.drop_eq s f msg hFind]
      exact hRest
    | some client =>
      simp only []
      rw [Server.deliver_eq s f client msg hCb hFind]
      exact hRest

theorem Server.messageEvents_delivery_one (s : Server) (f : HandlerId)
    (msg : SteamNetworkingMessage_t) :
    (Server.messageEvents s f msg).filterMap Event.asServerDataReceived
      = (Server.expectedDelivery s f msg).toList := by
  unfold Server.messageEvents Server.expectedDelivery
  cases s.m_ConnectedClients.find msg.m_conn with
  | none => simp [Event.asServerDataReceived, List.filterMap_cons]
  | some client =>
    by_cases hSize : msg.m_cbSize > 0 <;>
      simp [Event.asServerDataReceived, List.filterMap_cons, hSize]

theorem Server.messageEvents_release_one (s : Server) (f : HandlerId)
    (msg : SteamNetworkingMessage_t) :
    (Server.messageEvents s f msg).filterMap Event.asRelease = [msg] := by
  unfold Server.messageEvents
  cases s.m_ConnectedClients.find msg.m_conn with
  | none => simp [Event.asRelease, List.filterMap_cons]
  | some client =>
    by_cases hSize : msg.m_cbSize > 0 <;> simp [Event.asRelease, List.filterMap_cons, hSize]

theorem Server.messageEvents_deliveries (s : Server) (f : HandlerId)
    (msgs : List SteamNetworkingMessage_t) :
    (msgs.flatMap (Server.messageEvents s f)
        ++ [Event.ReceiveMessagesOnPollGroup s.m_PollGroup]).filterMap
        Event.asServerDataReceived
      = msgs.filterMap (Server.expectedDelivery s f) := by
  induction msgs with
  | nil => simp [Event.asServerDataReceived]
  | cons msg rest ih =>
    rw [List.flatMap_cons, List.append_assoc, List.filterMap_append, ih,
      Server.messageEvents_delivery_one, List.filterMap_cons]
    cases Server.expectedDelivery s f msg <;> simp

theorem Server.messageEvents_releases (s : Server) (f : HandlerId)
    (msgs : List SteamNetworkingMessage_t) :
    (msgs.flatMap (Server.messageEvents s f)
        ++ [Event.ReceiveMessagesOnPollGroup s.m_PollGroup]).filterMap Event.asRelease
      = msgs := by
  induction msgs with
  | nil => simp [Event.asRelease]
  | cons msg rest ih =>
    rw [List.flatMap_cons, List.append_assoc, List.filterMap_append, ih,
      Server.messageEvents_release_one]
    rfl

/-- C8 (counterexample): connection 7 is in the registry and a data-received handler is
registered; the adapter returns one message from 7 whose size is 0.  The poll returns
with no data-received invocation in the trace, although the message is released. -/
theorem C8_empty_message_from_registered_peer_not_delivered :
    7 ∈ Examples.serverWith7.GetConnectedClients.keys
    ∧ (Server.PollIncomingMessages Examples.serverWith7
          [ReceiveReply.one (Examples.message 7 0 1)]).map
        (fun s => (s.trace.filterMap Event.asServerDataReceived,
          s.trace.filterMap Event.asRelease))
      = some ([], [Examples.message 7 0 1]) := by
  decide

/-- C8 (amended): with the running flag set, a non-null adapter and a data-received
handler f registered, polling the finite sequence `msgs` of inbound messages returns;
the registry is unchanged and the flag still set; the new part of the trace is, message
by message in arrival order, the receive call, then (only when the sender is a key of
the registry and the size is positive) one invocation of f with the sender's ClientInfo
and a buffer of the message's bytes and length, then the release of the message,
followed by the final receive call that finds nothing.  So the handler invocations are
those of the registered senders' messages of positive size, in arrival order, and every
message is released exactly once. -/
theorem C8_positive_size_messages_delivered_in_order (s : Server) (f : HandlerId)
    (msgs : List SteamNetworkingMessage_t)
    (hRun : s.m_Running = true) (hIface : s.m_Interface = true)
    (hCb : s.m_DataReceivedCallback = some f) :
    ∃ s1 new, Server.PollIncomingMessages s (msgs.map ReceiveReply.one) = some s1
      ∧ s1.GetConnectedClients = s.GetConnectedClients
      ∧ s1.m_Running = true
      ∧ s1.trace = s.trace ++ new
      ∧ new = msgs.flatMap (Server.messageEvents s f)
          ++ [Event.ReceiveMessagesOnPollGroup s.m_PollGroup]
      ∧ new.filterMap Event.asServerDataReceived = msgs.filterMap (Server.expectedDelivery s f)
      ∧ new.filterMap Event.asRelease = msgs := by
  refine ⟨_, _, Server.PollIncomingMessages_messages f msgs s hRun hIface hCb, rfl, hRun,
    rfl, rfl, ?_, ?_⟩
  · exact Server.messageEvents_deliveries s f msgs
  · exact Server.messageEvents_releases s f msgs

/-- C8 (witness): the listening server holding connection 7 polls three messages of
three bytes from 7. -/
theorem C8_positive_size_messages_delivered_in_order_witness :
    ∃ s1 new, Server.PollIncomingMessages Examples.serverWith7
        ([Examples.message 7 3 1, Examples.message 7 3 2, Examples.message 7 3 3].map
          ReceiveReply.one) = some s1
      ∧ s1.GetConnectedClients = Examples.serverWith7.GetConnectedClients
      ∧ s1.m_Running = true
      ∧ s1.trace = Examples.serverWith7.trace ++ new
      ∧ new = [Examples.message 7 3 1, Examples.message 7 3 2, Examples.message 7 3 3].flatMap
            (Server.messageEvents Examples.serverWith7 10)
          ++ [Event.ReceiveMessagesOnPollGroup Examples.serverWith7.m_PollGroup]
      ∧ new.filterMap Event.asServerDataReceived
          = [Examples.message 7 3 1, Examples.message 7 3 2, Examples.message 7 3 3].filterMap
              (Server.expectedDelivery Examples.serverWith7 10)
      ∧ new.filterMap Event.asRelease
          = [Examples.message 7 3 1, Examples.message 7 3 2, Examples.message 7 3 3] :=
  C8_positive_size_messages_delivered_in_order Examples.serverWith7 10
    [Examples.message 7 3 1, Examples.message 7 3 2, Examples.message 7 3 3] rfl rfl rfl

/-! ## Client: the stored handle against the status -/

/-- C10 (evaluation at the failing input): a fresh client connects (the adapter hands
out handle 5), the link becomes Connected, and the application calls `Disconnect`.
After the pump's teardown and the join the status is `Disconnected`, yet the stored
handle is still 5, different from the invalid handle: the teardown closes the
connection without resetting `m_Connection`.  `SendBuffer` therefore still accepts the
handle and forwards a send for it. -/
theorem C10_handle_still_valid_after_Disconnect :
    ((Client.ConnectToServer Examples.api Client.new "127.0.0.1:8192"
          [Examples.connectThenStop]).bind
            (fun c => Client.Disconnect Examples.api c [])).map
        (fun s => (s.GetConnectionStatus, s.m_Connection,
          decide (s.m_Connection ≠ k_HSteamNetConnection_Invalid),
          (Client.SendBuffer Examples.api s { Data := [1], Size := 1 } true).trace.getLast?))
      = some (ConnectionStatus.Disconnected, 5, true,
          some (Event.SendMessageToConnection 5 [1] 1 .k_nSteamNetworkingSend_Reliable)) := by
  decide

/-! ## Client: start-up failures -/

theorem Client.NetworkThreadFunc_init_failed (api : ISteamNetworkingSockets) (s : Client)
    (script : List PumpCycle) (hInit : api.GameNetworkingSockets_Init = false) :
    Client.NetworkThreadFunc api s script
      = some { s with
          s_Instance := true
          m_ConnectionStatus := .FailedToConnect
          m_ConnectionDebugMessage := "Could not initialize GameNetworkingSockets"
          trace := s.trace ++ [Event.GameNetworkingSockets_Init] } := by
  simp [Client.NetworkThreadFunc, hInit, Client.emit]

theorem Client.NetworkThreadFunc_parse_failed (api : ISteamNetworkingSockets) (s : Client)
    (script : List PumpCycle) (hInit : api.GameNetworkingSockets_Init = true)
    (hIface : api.SteamNetworkingSockets = true)
    (hParse : api.ParseString s.m_ServerAddress = false) :
    Client.NetworkThreadFunc api s script
      = some { s with
          s_Instance := true
          m_Interface := true
          m_Running := false
          m_ConnectionStatus := .FailedToConnect
          m_ConnectionDebugMessage := "Invalid IP address"
          trace := s.trace ++ [Event.GameNetworkingSockets_Init] } := by
  simp [Client.NetworkThreadFunc, hInit, hIface, hParse, Client.emit, Client.OnFatalError]

theorem Client.NetworkThreadFunc_connect_failed (api : ISteamNetworkingSockets) (s : Client)
    (script : List PumpCycle) (hInit : api.GameNetworkingSockets_Init = true)
    (hIface : api.SteamNetworkingSockets = true)
    (hParse : api.ParseString s.m_ServerAddress = true)
    (hConn : api.ConnectByIPAddress s.m_ServerAddress = k_HSteamNetConnection_Invalid) :
    Client.NetworkThreadFunc api s script
      = some { s with
          s_Instance := true
          m_Interface := true
          m_Connection := k_HSteamNetConnection_Invalid
          m_ConnectionStatus := .FailedToConnect
          m_ConnectionDebugMessage := "Failed to create connection"
          trace := s.trace ++
            [Event.GameNetworkingSockets_Init, Event.ConnectByIPAddress s.m_ServerAddress] } := by
  simp [Client.NetworkThreadFunc, hInit, hIface, hParse, hConn, Client.emit]

/-- C11: the client pump is started with the running flag clear (`ConnectToServer`
starts it only then).  If library initialisation fails, or the interface is obtained
and the address fails to parse or the adapter's connect returns the invalid handle,
then for every script `NetworkThreadFunc` returns with status FailedToConnect, a
non-empty debug message and the running flag false, and the events it added to the
trace contain no receive call and no run of the status-change callbacks: the poll loop
was never entered. -/
theorem C11_failed_start_sets_FailedToConnect_without_polling (api : ISteamNetworkingSockets)
    (s : Client) (script : List PumpCycle)
    (hIdle : s.m_Running = false)
    (hFail : api.GameNetworkingSockets_Init = false
      ∨ (api.GameNetworkingSockets_Init = true ∧ api.SteamNetworkingSockets = true
          ∧ (api.ParseString s.m_ServerAddress = false
              ∨ api.ConnectByIPAddress s.m_ServerAddress = k_HSteamNetConnection_Invalid))) :
    ∃ s1 new, Client.NetworkThreadFunc api s script = some s1
      ∧ s1.GetConnectionStatus = ConnectionStatus.FailedToConnect
      ∧ s1.m_ConnectionDebugMessage ≠ ""
      ∧ s1.m_Running = false
      ∧ s1.trace = s.trace ++ new
      ∧ ∀ e ∈ new, e.isPoll = false := by
  rcases hFail with hInit | ⟨hInit, hIface, hRest⟩
  · rw [Client.NetworkThreadFunc_init_failed api s script hInit]
    refine ⟨_, [Event.GameNetworkingSockets_Init], rfl, rfl, by simp, hIdle, rfl, ?_⟩
    intro e he
    simp only [List.mem_singleton] at he
    subst he
    rfl
  · by_cases hParse : api.ParseString s.m_ServerAddress = false
    · rw [Client.NetworkThreadFunc_parse_failed api s script hInit hIface hParse]
      refine ⟨_, [Event.GameNetworkingSockets_Init], rfl, rfl, by simp, rfl, rfl, ?_⟩
      intro e he
      simp only [List.mem_singleton] at he
      subst he
      rfl
    · have hConn : api.ConnectByIPAddress s.m_ServerAddress = k_HSteamNetConnection_Invalid := by
        rcases hRest with h | h
        · exact absurd h hParse
        · exact h
      have hParse1 : api.ParseString s.m_ServerAddress = true := by simpa using hParse
      rw [Client.NetworkThreadFunc_connect_failed api s script hInit hIface hParse1 hConn]
      refine ⟨_,
        [Event.GameNetworkingSockets_Init, Event.ConnectByIPAddress s.m_ServerAddress],
        rfl, rfl, by simp, hIdle, rfl, ?_⟩
      intro e he
      simp only [List.mem_cons, List.mem_singleton, List.not_mem_nil, or_false] at he
      rcases he with he | he <;> subst he <;> rfl

/-- C11 (witness): a fresh client started for the address "not-an-address" on a
transport library that cannot parse it. -/
theorem C11_failed_start_sets_FailedToConnect_without_polling_witness :
    ∃ s1 new, Client.NetworkThreadFunc Examples.apiStrict Examples.clientBadAddress
        [Examples.connectThenStop] = some s1
      ∧ s1.GetConnectionStatus = ConnectionStatus.FailedToConnect
      ∧ s1.m_ConnectionDebugMessage ≠ ""
      ∧ s1.m_Running = false
      ∧ s1.trace = Examples.clientBadAddress.trace ++ new
      ∧ ∀ e ∈ new, e.isPoll = false :=
  C11_failed_start_sets_FailedToConnect_without_polling Examples.apiStrict
    Examples.clientBadAddress [Examples.connectThenStop] rfl
    (Or.inr ⟨rfl, rfl, Or.inl (by decide)⟩)

/-! ## Client: the handlers and the status notifications -/

/-- C12 (evaluation at the failing input): a client with an established session on
handle 5 and a handler registered through `SetServerDisconnectedCallback` (identity 22)
receives "closed by peer, old state Connected".  `Client::OnConnectionStatusChanged`
closes the handle and returns without a single invocation of that handler: the slot is
written by the setter and read nowhere. -/
theorem C12_server_disconnected_handler_never_invoked :
    (Client.SetServerDisconnectedCallback Examples.clientConnected (some 22)
        ).m_ServerDisconnectedCallback = some 22
    ∧ (Client.OnConnectionStatusChanged
        (Client.SetServerDisconnectedCallback Examples.clientConnected (some 22))
        (Examples.notify 5 .Connected .ClosedByPeer)).trace
      = [Event.CloseConnection 5 0 none false]
    ∧ ((Client.OnConnectionStatusChanged
        (Client.SetServerDisconnectedCallback Examples.clientConnected (some 22))
        (Examples.notify 5 .Connected .ClosedByPeer)).trace.filter
          Event.isServerDisconnected).length = 0 := by
  decide

/-- C15: `Client::SendBuffer` returns for every state, buffer, flag and adapter answer.
With a non-null adapter and a stored handle different from the invalid handle the
state after the call is the state before it with exactly one event appended: the send
for the stored handle, with the buffer's data, the buffer's size as the 32-bit value
handed to the adapter (the size itself whenever it is below 2^32), and the reliable
mode exactly when `reliable` is true; the adapter's answer does not enter the result,
so nothing is retried.  With a null adapter or the invalid handle the state is left
as it was, so no adapter call is made.  Status, running flag and handle are the same
before and after in every case. -/
theorem C15_client_send_forwards_once_or_not_at_all (api : ISteamNetworkingSockets)
    (s : Client) (buffer : Buffer) (reliable : Bool) :
    ((s.m_Interface = true ∧ s.m_Connection ≠ k_HSteamNetConnection_Invalid) →
      Client.SendBuffer api s buffer reliable
        = { s with trace := s.trace ++
              [Event.SendMessageToConnection s.m_Connection buffer.Data (buffer.Size % 2 ^ 32)
                (if reliable then .k_nSteamNetworkingSend_Reliable
                 else .k_nSteamNetworkingSend_Unreliable)] }
      ∧ (buffer.Size < 2 ^ 32 → buffer.Size % 2 ^ 32 = buffer.Size))
    ∧ ((s.m_Interface = false ∨ s.m_Connection = k_HSteamNetConnection_Invalid) →
      Client.SendBuffer api s buffer reliable = s)
    ∧ (Client.SendBuffer api s buffer reliable).GetConnectionStatus = s.GetConnectionStatus
    ∧ (Client.SendBuffer api s buffer reliable).m_Running = s.m_Running
    ∧ (Client.SendBuffer api s buffer reliable).m_Connection = s.m_Connection := by
  have hValid : (s.m_Interface = true ∧ s.m_Connection ≠ k_HSteamNetConnection_Invalid) →
      Client.SendBuffer api s buffer reliable
        = { s with trace := s.trace ++
              [Event.SendMessageToConnection s.m_Connection buffer.Data (buffer.Size % 2 ^ 32)
                (if reliable then .k_nSteamNetworkingSend_Reliable
                 else .k_nSteamNetworkingSend_Unreliable)] } := by
    rintro ⟨hIface, hConn⟩
    simp [Client.SendBuffer, hIface, hConn, Client.emit]
  have hInvalid : (s.m_Interface = false ∨ s.m_Connection = k_HSteamNetConnection_Invalid) →
      Client.SendBuffer api s buffer reliable = s := by
    rintro (hIface | hConn)
    · simp [Client.SendBuffer, hIface]
    · simp [Client.SendBuffer, hConn]
  refine ⟨fun h => ⟨hValid h, fun hSize => Nat.mod_eq_of_lt hSize⟩, hInvalid, ?_⟩
  by_cases h : s.m_Interface = true ∧ s.m_Connection ≠ k_HSteamNetConnection_Invalid
  · rw [hValid h]
    exact ⟨rfl, rfl, rfl⟩
  · have h1 : s.m_Interface = false ∨ s.m_Connection = k_HSteamNetConnection_Invalid := by
      by_cases hIface : s.m_Interface = true
      · right
        by_contra hConn
        exact h ⟨hIface, hConn⟩
      · left
        simpa using hIface
    rw [hInvalid h1]
    exact ⟨rfl, rfl, rfl⟩

/-- C15 (witness): the connected client sends three bytes unreliably on its handle 5,
on a transport library whose send answers with a failure code. -/
theorem C15_client_send_forwards_once_or_not_at_all_witness :
    Client.SendBuffer
        { Examples.api with SendMessageToConnection := fun _ _ _ _ => .other 2 }
        Examples.clientConnected { Data := [1, 2, 3], Size := 3 } false
      = { Examples.clientConnected with trace := Examples.clientConnected.trace ++
            [Event.SendMessageToConnection 5 [1, 2, 3] (3 % 2 ^ 32)
              .k_nSteamNetworkingSend_Unreliable] } :=
  ((C15_client_send_forwards_once_or_not_at_all
    { Examples.api with SendMessageToConnection := fun _ _ _ _ => .other 2 }
    Examples.clientConnected { Data := [1, 2, 3], Size := 3 } false).1
      ⟨rfl, by decide⟩).1

/-! ## Stop and Disconnect -/

/-- The client whose thread was spawned and has not run yet: `Disconnect` stores false,
the pump then starts, stores true and polls, and after two quiet cycles the join has
not returned; on a script in which the peer closes the link the pump leaves its loop
and the call returns, with the flag false and the thread joined; on a transport library
that cannot parse the address the pump returns from its start-up and so does the
call. -/
theorem Client.Disconnect_just_spawned :
    Client.Disconnect Examples.api Examples.clientSpawned [] = none
    ∧ Client.Disconnect Examples.api Examples.clientSpawned
        [Examples.quietCycle, Examples.quietCycle] = none
    ∧ (Client.Disconnect Examples.api Examples.clientSpawned [Examples.peerCloses]).map
        (fun c => (c.m_Running, c.m_NetworkThread, c.pump, c.GetConnectionStatus))
        = some (false, false, PumpPosition.idle, ConnectionStatus.Disconnected)
    ∧ (Client.Disconnect Examples.apiStrict Examples.clientBadAddress []).map
        (fun c => (c.m_Running, c.m_NetworkThread, c.pump, c.GetConnectionStatus))
        = some (false, false, PumpPosition.idle, ConnectionStatus.FailedToConnect) := by
  decide

/-- C18: for every server state and identifier, `Server::KickClient(id)` leaves the
registry and the three handler slots unchanged and appends to the trace at most one
event, which is the adapter close of `id` (no handler invocation).  Hence an `id`
that was a key of `GetConnectedClients` is still one right after the call, and, with a
non-null adapter and a registry with ascending keys, `SendBufferToAllClients` called
next still issues exactly one send for `id` unless `id` is the excluded identifier. -/
theorem C18_KickClient_leaves_registry_unchanged (api : ISteamNetworkingSockets)
    (s : Server) (clientID excludeClientID : ClientID) (buffer : Buffer) (reliable : Bool) :
    (Server.KickClient api s clientID).GetConnectedClients = s.GetConnectedClients
    ∧ (∃ closes : List Event, (Server.KickClient api s clientID).trace = s.trace ++ closes
        ∧ closes.length ≤ 1
        ∧ ∀ e ∈ closes, e = Event.CloseConnection clientID 0 (some "Kicked by host") false)
    ∧ (clientID ∈ s.GetConnectedClients.keys →
        clientID ∈ (Server.KickClient api s clientID).GetConnectedClients.keys)
    ∧ ((s.m_Interface = true ∧ s.GetConnectedClients.WF
          ∧ clientID ∈ s.GetConnectedClients.keys ∧ clientID ≠ excludeClientID) →
        ∃ sends : List Event,
          (Server.SendBufferToAllClients api (Server.KickClient api s clientID) buffer
              excludeClientID reliable).trace
            = (Server.KickClient api s clientID).trace ++ sends
          ∧ sends.count (Event.SendMessageToConnection clientID buffer.Data
              (buffer.Size % 2 ^ 32)
              (if reliable then .k_nSteamNetworkingSend_Reliable
               else .k_nSteamNetworkingSend_Unreliable)) = 1) := by
  have hReg : (Server.KickClient api s clientID).m_ConnectedClients = s.m_ConnectedClients := by
    unfold Server.KickClient
    by_cases hIface : s.m_Interface = true <;> simp [hIface, Server.emit]
  have hIfaceKept : (Server.KickClient api s clientID).m_Interface = s.m_Interface := by
    unfold Server.KickClient
    by_cases hIface : s.m_Interface = true <;> simp [hIface, Server.emit]
  refine ⟨hReg, ?_, ?_, ?_⟩
  · unfold Server.KickClient
    by_cases hIface : s.m_Interface = true
    · refine ⟨[Event.CloseConnection clientID 0 (some "Kicked by host") false], ?_, ?_, ?_⟩
      · simp [hIface, Server.emit]
      · simp
      · intro e he
        simpa using he
    · refine ⟨[], ?_, ?_, ?_⟩
      · simp [hIface]
      · simp
      · intro e he
        cases he
  · intro hMem
    simp only [Server.GetConnectedClients] at hMem ⊢
    rw [hReg]
    exact hMem
  · rintro ⟨hIface, hMap, hMem, hNe⟩
    simp only [Server.GetConnectedClients] at hMap hMem
    unfold Server.SendBufferToAllClients
    rw [Server.sendLoop_trace api buffer excludeClientID reliable _ _
      (hIfaceKept.trans hIface), hReg]
    refine ⟨_, rfl, ?_⟩
    have hEv : Event.SendMessageToConnection clientID buffer.Data (buffer.Size % 2 ^ 32)
        (if reliable then .k_nSteamNetworkingSend_Reliable
         else .k_nSteamNetworkingSend_Unreliable) = Server.sendEvent buffer reliable clientID :=
      rfl
    rw [hEv, List.count_map_of_injective _ _ (Server.sendEvent_injective buffer reliable)]
    refine List.count_eq_one_of_mem ((StdMap.WF.nodup_keys hMap).filter _) ?_
    exact List.mem_filter.mpr ⟨hMem, by simpa using hNe⟩

/-- C18 (witness): the listening server holding connections 7 and 9 kicks 7 and then
sends to everybody except 9. -/
theorem C18_KickClient_leaves_registry_unchanged_witness :
    ∃ sends : List Event,
      (Server.SendBufferToAllClients Examples.api
          (Server.KickClient Examples.api Examples.serverWith7and9 7)
          { Data := [1, 2, 3], Size := 3 } 9 true).trace
        = (Server.KickClient Examples.api Examples.serverWith7and9 7).trace ++ sends
      ∧ sends.count (Event.SendMessageToConnection 7 [1, 2, 3] (3 % 2 ^ 32)
          (if true = true then .k_nSteamNetworkingSend_Reliable
           else .k_nSteamNetworkingSend_Unreliable)) = 1 :=
  (C18_KickClient_leaves_registry_unchanged Examples.api Examples.serverWith7and9 7 9
    { Data := [1, 2, 3], Size := 3 } true).2.2.2
    ⟨rfl,
     by simp [StdMap.WF, StdMap.keys, Server.GetConnectedClients, Examples.serverWith7and9],
     by decide, by decide⟩

/-! ## Server: the pump run and its teardown -/

theorem StdMap.WF.erase {m : StdMap} (h : StdMap.WF m) (k : HSteamNetConnection) :
    StdMap.WF (StdMap.erase m k) := by
  unfold StdMap.WF StdMap.keys StdMap.erase at *
  exact List.Pairwise.sublist (List.Sublist.map _ (List.filter_sublist _)) h

theorem StdMap.WF.insert {m : StdMap} (h : StdMap.WF m) (k : HSteamNetConnection)
    (v : ClientInfo) : StdMap.WF (StdMap.insert m k v) := by
  induction m with
  | nil => simp [StdMap.insert, StdMap.WF, StdMap.keys]
  | cons p rest ih =>
    obtain ⟨k0, v0⟩ := p
    have hHead : ∀ b ∈ StdMap.keys rest, k0 < b := by
      intro b hb
      have h1 : List.Pairwise (fun a b => a < b) (k0 :: StdMap.keys rest) := h
      exact (List.pairwise_cons.mp h1).1 b hb
    have hTail : StdMap.WF rest := by
      have h1 : List.Pairwise (fun a b => a < b) (k0 :: StdMap.keys rest) := h
      exact (List.pairwise_cons.mp h1).2
    unfold StdMap.insert
    by_cases h1 : k < k0
    · simp only [h1, if_true]
      show List.Pairwise (fun a b => a < b) (k :: k0 :: StdMap.keys rest)
      refine List.pairwise_cons.mpr ⟨?_, h⟩
      intro b hb
      rcases List.mem_cons.mp hb with hb | hb
      · rw [hb]; exact h1
      · exact Nat.lt_trans h1 (hHead b hb)
    · by_cases h2 : k = k0
      · subst h2
        simp only [Nat.lt_irrefl, if_false, if_true]
        show List.Pairwise (fun a b => a < b) (k :: StdMap.keys rest)
        exact h
      · simp only [h1, h2, if_false]
        show List.Pairwise (fun a b => a < b) (k0 :: StdMap.keys (StdMap.insert rest k v))
        refine List.pairwise_cons.mpr ⟨?_, ih hTail⟩
        intro b hb
        rcases (StdMap.mem_keys_insert rest k b v).mp hb with hb | hb
        · rw [hb]; exact Nat.lt_of_le_of_ne (Nat.le_of_not_lt h1) (Ne.symm h2)
        · exact hHead b hb

theorem Server.Advances.step_refl (s : Server) : Server.Advances s s :=
  ⟨rfl, rfl, rfl, fun h => h, [], by simp, by simp⟩

theorem Server.Advances.step_trans {s s1 s2 : Server} (h1 : Server.Advances s s1)
    (h2 : Server.Advances s1 s2) : Server.Advances s s2 := by
  obtain ⟨a1, b1, c1, d1, n1, e1, f1⟩ := h1
  obtain ⟨a2, b2, c2, d2, n2, e2, f2⟩ := h2
  refine ⟨Eq.trans a2 a1, Eq.trans b2 b1, Eq.trans c2 c1, fun h => d2 (d1 h), n1 ++ n2, ?_, ?_⟩
  · rw [e2, e1, List.append_assoc]
  · intro e he
    rcases List.mem_append.mp he with he | he
    · exact f1 e he
    · exact f2 e he

theorem Server.Advances.step_emit (s : Server) (e : Event) (h : e.isTeardown = false) :
    Server.Advances s (s.emit e) := by
  refine ⟨rfl, rfl, rfl, fun h => h, [e], rfl, ?_⟩
  intro e1 he
  simp only [List.mem_singleton] at he
  rw [he]
  exact h

theorem Server.Advances.step_stop (s : Server) :
    Server.Advances s { s with m_Running := false } :=
  ⟨rfl, rfl, rfl, fun h => h, [], by simp, by simp⟩

theorem Server.Advances.step_deliver (s : Server) (client : ClientInfo)
    (msg : SteamNetworkingMessage_t) : Server.Advances s (Server.deliver s client msg) := by
  unfold Server.deliver
  cases s.m_DataReceivedCallback with
  | none => exact Server.Advances.step_emit _ (.Release msg) rfl
  | some f =>
    by_cases hSize : msg.m_cbSize > 0
    · simp only [hSize, if_true]
      exact (Server.Advances.step_emit s
        (.Server_DataReceivedCallback f client (Buffer.ofMessage msg)) rfl).step_trans
        (Server.Advances.step_emit _ (.Release msg) rfl)
    · simp only [hSize, if_false]
      exact Server.Advances.step_emit _ (.Release msg) rfl

theorem Server.Advances.step_PollIncomingMessages (replies : List ReceiveReply) :
    ∀ s s1 : Server, Server.PollIncomingMessages s replies = some s1 →
      Server.Advances s s1 := by
  induction replies with
  | nil =>
    intro s s1 h
    unfold Server.PollIncomingMessages at h
    by_cases hRun : s.m_Running = true
    · by_cases hIface : s.m_Interface = true
      · simp only [hRun, hIface, if_true, Option.some.injEq] at h
        subst h
        exact Server.Advances.step_emit _ (.ReceiveMessagesOnPollGroup s.m_PollGroup) rfl
      · simp [hRun, hIface] at h
    · simp only [hRun, Bool.false_eq_true, if_false, Option.some.injEq] at h
      subst h
      exact Server.Advances.step_refl _
  | cons r rest ih =>
    intro s s1 h
    unfold Server.PollIncomingMessages at h
    by_cases hRun : s.m_Running = true
    · by_cases hIface : s.m_Interface = true
      · have hRecv := Server.Advances.step_emit s (.ReceiveMessagesOnPollGroup s.m_PollGroup) rfl
        simp only [hRun, hIface, if_true] at h
        by_cases h0 : r.messageCount = 0
        · simp only [h0, if_true, Option.some.injEq] at h
          subst h
          exact hRecv
        · by_cases hNeg : r.messageCount < 0
          · simp only [h0, hNeg, if_true, if_false, Option.some.injEq] at h
            subst h
            exact hRecv.step_trans (Server.Advances.step_stop _)
          · simp only [h0, hNeg, if_false] at h
            cases hMsg : r.incomingMessage with
            | none => simp [hMsg] at h
            | some m =>
              simp only [hMsg] at h
              by_cases h1 : r.messageCount = 1
              · simp only [h1, if_true] at h
                cases hFind : StdMap.find (s.emit (.ReceiveMessagesOnPollGroup
                    s.m_PollGroup)).m_ConnectedClients m.m_conn with
                | none =>
                  simp only [hFind] at h
                  exact (hRecv.step_trans (Server.Advances.step_emit _ (.Release m) rfl)).step_trans
                    (ih _ _ h)
                | some client =>
                  simp only [hFind] at h
                  exact (hRecv.step_trans (Server.Advances.step_deliver _ _ _)).step_trans
                    (ih _ _ h)
              · simp [h1] at h
      · simp [hRun, hIface] at h
    · simp only [hRun, Bool.false_eq_true, if_false, Option.some.injEq] at h
      subst h
      exact Server.Advances.step_refl _

theorem Server.Advances.step_afterDisconnect (s : Server) (hConn : HSteamNetConnection)
    (client : ClientInfo) : Server.Advances s (Server.afterDisconnect s hConn client) := by
  unfold Server.afterDisconnect
  cases s.m_ClientDisconnectedCallback with
  | none => exact ⟨rfl, rfl, rfl, fun h => h.erase hConn, [], by simp, by simp⟩
  | some f =>
    refine ⟨rfl, rfl, rfl, fun h => h.erase hConn,
      [Event.Server_ClientDisconnectedCallback f client s.m_ConnectedClients], rfl, ?_⟩
    intro e he
    simp only [List.mem_singleton] at he
    rw [he]
    rfl

theorem Server.Advances.step_onClosed (s s1 : Server)
    (status : SteamNetConnectionStatusChangedCallback_t)
    (h : Server.onClosed s status = some s1) : Server.Advances s s1 := by
  have hIface := Server.onClosed_some_iface s s1 status h
  have hClose : ∀ t : Server, Server.Advances t (t.emit (Server.closeEvent status.m_hConn)) :=
    fun t => Server.Advances.step_emit t _ rfl
  by_cases hOld : status.m_eOldState = .Connected
  · cases hFind : s.m_ConnectedClients.find status.m_hConn with
    | none =>
      rw [Server.onClosed_absent s status hFind hIface] at h
      cases h
      exact hClose s
    | some client =>
      rw [Server.onClosed_present s status client hOld hFind hIface] at h
      cases h
      exact (Server.Advances.step_afterDisconnect s status.m_hConn client).step_trans (hClose _)
  · rw [Server.onClosed_not_connected s status hOld hIface] at h
    cases h
    exact hClose s

theorem Server.Advances.step_onConnecting (api : ISteamNetworkingSockets) (s s1 : Server)
    (status : SteamNetConnectionStatusChangedCallback_t)
    (h : Server.onConnecting api s status = some s1) : Server.Advances s s1 := by
  unfold Server.onConnecting at h
  by_cases hIface : s.m_Interface = true
  · simp only [hIface, if_true] at h
    have hA := Server.Advances.step_emit s (.AcceptConnection status.m_hConn) rfl
    by_cases hAcc : api.AcceptConnection status.m_hConn = .k_EResultOK
    · simp only [hAcc, ne_eq, not_true_eq_false, if_false] at h
      have hB := hA.step_trans (Server.Advances.step_emit _
        (.SetConnectionPollGroup status.m_hConn s.m_PollGroup) rfl)
      by_cases hGrp : api.SetConnectionPollGroup status.m_hConn s.m_PollGroup = true
      · have hGrp1 : api.SetConnectionPollGroup status.m_hConn
            (s.emit (.AcceptConnection status.m_hConn)).m_PollGroup = true := hGrp
        simp only [hGrp1, Bool.true_eq_false, if_false] at h
        cases hCbC : s.m_ClientConnectedCallback with
        | none =>
          simp only [Server.emit, hCbC, Option.some.injEq] at h
          subst h
          refine ⟨rfl, rfl, rfl, fun hw => StdMap.WF.insert hw _ _,
            [Event.AcceptConnection status.m_hConn,
             Event.SetConnectionPollGroup status.m_hConn s.m_PollGroup,
             Event.GetConnectionInfo status.m_hConn], by simp, ?_⟩
          intro e he
          simp only [List.mem_cons, List.mem_singleton, List.not_mem_nil, or_false] at he
          rcases he with he | he | he <;> rw [he] <;> rfl
        | some g =>
          simp only [Server.emit, hCbC, Option.some.injEq] at h
          subst h
          refine ⟨rfl, rfl, rfl, fun hw => StdMap.WF.insert hw _ _,
            [Event.AcceptConnection status.m_hConn,
             Event.SetConnectionPollGroup status.m_hConn s.m_PollGroup,
             Event.GetConnectionInfo status.m_hConn,
             Event.Server_ClientConnectedCallback g
               { ID := status.m_hConn
                 ConnectionDesc := api.GetConnectionInfo status.m_hConn }], by simp, ?_⟩
          intro e he
          simp only [List.mem_cons, List.mem_singleton, List.not_mem_nil, or_false] at he
          rcases he with he | he | he | he <;> rw [he] <;> rfl
      · have hGrp1 : api.SetConnectionPollGroup status.m_hConn
            (s.emit (.AcceptConnection status.m_hConn)).m_PollGroup = false := by
          simpa using hGrp
        simp only [hGrp1, if_true, Option.some.injEq] at h
        subst h
        exact hB.step_trans (Server.Advances.step_emit _ (Server.closeEvent status.m_hConn) rfl)
    · simp only [hAcc, ne_eq, not_false_eq_true, if_true, Option.some.injEq] at h
      subst h
      exact hA.step_trans (Server.Advances.step_emit _ (Server.closeEvent status.m_hConn) rfl)
  · simp [hIface] at h

theorem Server.Advances.step_OnConnectionStatusChanged (api : ISteamNetworkingSockets)
    (s s1 : Server) (status : SteamNetConnectionStatusChangedCallback_t)
    (h : Server.OnConnectionStatusChanged api s status = some s1) : Server.Advances s s1 := by
  cases hState : status.m_info.m_eState with
  | ClosedByPeer =>
    rw [Server.OnConnectionStatusChanged_closing api s status (Or.inl hState)] at h
    exact Server.Advances.step_onClosed s s1 status h
  | ProblemDetectedLocally =>
    rw [Server.OnConnectionStatusChanged_closing api s status (Or.inr hState)] at h
    exact Server.Advances.step_onClosed s s1 status h
  | Connecting =>
    rw [Server.OnConnectionStatusChanged_connecting api s status hState] at h
    exact Server.Advances.step_onConnecting api s s1 status h
  | _ =>
    simp only [Server.OnConnectionStatusChanged, hState, Option.some.injEq] at h
    subst h
    exact Server.Advances.step_refl _

theorem Server.Advances.step_callbacks (api : ISteamNetworkingSockets)
    (pending : List SteamNetConnectionStatusChangedCallback_t) :
    ∀ s s1 : Server,
      pending.foldlM (Server.ConnectionStatusChangedCallback api) s = some s1 →
      Server.Advances s s1 := by
  induction pending with
  | nil =>
    intro s s1 h
    simp only [List.foldlM_nil] at h
    cases h
    exact Server.Advances.step_refl _
  | cons status rest ih =>
    intro s s1 h
    simp only [List.foldlM_cons] at h
    cases hStep : Server.ConnectionStatusChangedCallback api s status with
    | none => simp [hStep] at h
    | some s2 =>
      rw [hStep] at h
      have hOne : Server.Advances s s2 := by
        unfold Server.ConnectionStatusChangedCallback at hStep
        by_cases hInst : s.s_Instance = true
        · simp only [hInst, if_true] at hStep
          exact Server.Advances.step_OnConnectionStatusChanged api s s2 status hStep
        · simp only [hInst, Bool.false_eq_true, if_false, Option.some.injEq] at hStep
          subst hStep
          exact Server.Advances.step_refl _
      exact hOne.step_trans (ih s2 s1 h)

theorem Server.Advances.step_PollConnectionStateChanges (api : ISteamNetworkingSockets)
    (s s1 : Server) (pending : List SteamNetConnectionStatusChangedCallback_t)
    (h : Server.PollConnectionStateChanges api s pending = some s1) :
    Server.Advances s s1 := by
  unfold Server.PollConnectionStateChanges at h
  by_cases hIface : s.m_Interface = true
  · simp only [hIface, if_true] at h
    exact (Server.Advances.step_emit s .RunCallbacks rfl).step_trans
      (Server.Advances.step_callbacks api pending _ s1 h)
  · simp only [hIface, Bool.false_eq_true, if_false, Option.some.injEq] at h
    subst h
    exact Server.Advances.step_refl _

theorem Server.Advances.step_pumpLoop (api : ISteamNetworkingSockets) (script : List PumpCycle) :
    ∀ s s1 : Server, Server.pumpLoop api s script = some s1 →
      Server.Advances s s1 ∧ s1.m_Running = false := by
  induction script with
  | nil =>
    intro s s1 h
    unfold Server.pumpLoop at h
    cases hRun : s.m_Running
    · simp only [hRun, Bool.false_eq_true, if_false, Option.some.injEq] at h
      subst h
      exact ⟨Server.Advances.step_refl _, hRun⟩
    · simp [hRun] at h
  | cons c cs ih =>
    intro s s1 h
    unfold Server.pumpLoop at h
    cases hRun : s.m_Running
    · simp only [hRun, Bool.false_eq_true, if_false, Option.some.injEq] at h
      subst h
      exact ⟨Server.Advances.step_refl _, hRun⟩
    · simp only [hRun, if_true] at h
      cases hPoll : Server.PollIncomingMessages s c.replies with
      | none => simp [hPoll] at h
      | some s2 =>
        simp only [hPoll] at h
        cases hCb : Server.PollConnectionStateChanges api s2 c.pending with
        | none => simp [hCb] at h
        | some s3 =>
          simp only [hCb] at h
          have h12 := Server.Advances.step_PollIncomingMessages c.replies s s2 hPoll
          have h23 := Server.Advances.step_PollConnectionStateChanges api s2 s3 c.pending hCb
          have h34 : Server.Advances s3 (if c.stopRequested then Server.Stop s3 else s3) := by
            cases c.stopRequested
            · exact Server.Advances.step_refl _
            · exact Server.Advances.step_stop _
          obtain ⟨h45, hEnd⟩ := ih _ s1 h
          exact ⟨((h12.step_trans h23).step_trans h34).step_trans h45, hEnd⟩

theorem Server.closeLoop_trace (m : StdMap) :
    ∀ s : Server,
      m.foldl (fun acc p => acc.emit (.CloseConnection p.1 0 (some "Server Shutdown") true)) s
        = { s with trace := s.trace ++ List.map Server.shutdownClose (StdMap.keys m) } := by
  induction m with
  | nil => intro s; simp [StdMap.keys]
  | cons p rest ih =>
    intro s
    simp only [List.foldl_cons]
    rw [ih]
    simp [StdMap.keys, Server.emit, Server.shutdownClose]

theorem Server.teardown_eq (s : Server) (hIface : s.m_Interface = true) :
    Server.teardown s
      = some { s with
          m_ConnectedClients := []
          m_ListenSocket := k_HSteamListenSocket_Invalid
          m_PollGroup := k_HSteamNetPollGroup_Invalid
          trace := s.trace ++ (List.map Server.shutdownClose (StdMap.keys s.m_ConnectedClients)
            ++ [Event.CloseListenSocket s.m_ListenSocket,
                Event.DestroyPollGroup s.m_PollGroup,
                Event.GameNetworkingSockets_Kill]) } := by
  unfold Server.teardown
  rw [if_pos hIface, Server.closeLoop_trace]
  simp [Server.emit]

theorem Server.NetworkThreadFunc_enters_loop (api : ISteamNetworkingSockets) (s : Server)
    (script : List PumpCycle)
    (hInit : api.GameNetworkingSockets_Init = true)
    (hIface : api.SteamNetworkingSockets = true)
    (hListen : api.CreateListenSocketIP (s.m_Port % 65536).toNat ≠ k_HSteamListenSocket_Invalid)
    (hGroup : api.CreatePollGroup ≠ k_HSteamNetPollGroup_Invalid) :
    Server.NetworkThreadFunc api s script
      = (Server.pumpLoop api (Server.loopEntry api s) script).bind Server.teardown := by
  unfold Server.NetworkThreadFunc
  simp only [hInit, hIface, Bool.true_eq_false, if_false, Server.emit, hListen, hGroup]
  have hEntry : ({ s with
      s_Instance := true
      m_Running := true
      m_Interface := true
      m_ListenSocket := api.CreateListenSocketIP (s.m_Port % 65536).toNat
      m_PollGroup := api.CreatePollGroup
      trace := s.trace ++ [Event.GameNetworkingSockets_Init] ++
        [Event.CreateListenSocketIP (s.m_Port % 65536).toNat] ++ [Event.CreatePollGroup] }
        : Server) = Server.loopEntry api s := by
    simp [Server.loopEntry]
  rw [hEntry]
  cases Server.pumpLoop api (Server.loopEntry api s) script <;> rfl

theorem Event.count_kill_of_no_teardown (l : List Event)
    (h : ∀ e ∈ l, e.isTeardown = false) : l.count Event.GameNetworkingSockets_Kill = 0 := by
  refine List.count_eq_zero_of_not_mem ?_
  intro hMem
  have := h _ hMem
  simp [Event.isTeardown] at this

theorem Server.PollIncomingMessages_error (s : Server) (r : ReceiveReply)
    (rest : List ReceiveReply) (hRun : s.m_Running = true) (hIface : s.m_Interface = true)
    (hNeg : r.messageCount < 0) :
    Server.PollIncomingMessages s (r :: rest)
      = some { s with
          m_Running := false
          trace := s.trace ++ [Event.ReceiveMessagesOnPollGroup s.m_PollGroup] } := by
  have h0 : r.messageCount ≠ 0 := by omega
  unfold Server.PollIncomingMessages
  simp [hRun, hIface, h0, hNeg, Server.emit]

/-- C14: take a run of `Server::NetworkThreadFunc` whose start-up succeeds (library
initialisation, listen socket, poll group), whose registry is a map at the start, and
whose poll loop ends on the given script.  The loop ends with the running flag clear;
a negative receive count clears the flag for the poll in which it occurs and appends
nothing but that receive call.  Up to the end of the loop the run issues no
listen-socket close, no poll-group destruction and no library shutdown.  The function
then returns, and what it appends after the loop is exactly: one close
("Server Shutdown") for each key of the registry as it is when the loop ends, the
close of the listen socket created at start-up, the destruction of the poll group
created at start-up, and one library shutdown.  Afterwards the registry is empty and
both handles are the invalid handle; the library shutdown occurs exactly once in the
whole run. -/
theorem C14_server_teardown_runs_exactly_once (api : ISteamNetworkingSockets) (s : Server)
    (script : List PumpCycle)
    (hInit : api.GameNetworkingSockets_Init = true)
    (hIface : api.SteamNetworkingSockets = true)
    (hListen : api.CreateListenSocketIP (s.m_Port % 65536).toNat ≠ k_HSteamListenSocket_Invalid)
    (hGroup : api.CreatePollGroup ≠ k_HSteamNetPollGroup_Invalid)
    (hMap : s.GetConnectedClients.WF)
    (hLoop : (Server.pumpLoop api (Server.loopEntry api s) script).isSome = true) :
    ∃ atExit final before after,
      Server.pumpLoop api (Server.loopEntry api s) script = some atExit
      ∧ atExit.m_Running = false
      ∧ Server.NetworkThreadFunc api s script = some final
      ∧ atExit.trace = s.trace ++ before
      ∧ (∀ e ∈ before, e.isTeardown = false)
      ∧ final.trace = atExit.trace ++ after
      ∧ after = atExit.GetConnectedClients.keys.map
            (fun h => Event.CloseConnection h 0 (some "Server Shutdown") true)
          ++ [Event.CloseListenSocket (api.CreateListenSocketIP (s.m_Port % 65536).toNat),
              Event.DestroyPollGroup api.CreatePollGroup,
              Event.GameNetworkingSockets_Kill]
      ∧ (∀ h, after.count (Event.CloseConnection h 0 (some "Server Shutdown") true)
          = if h ∈ atExit.GetConnectedClients.keys then 1 else 0)
      ∧ (before ++ after).count Event.GameNetworkingSockets_Kill = 1
      ∧ final.GetConnectedClients = []
      ∧ final.m_ListenSocket = k_HSteamListenSocket_Invalid
      ∧ final.m_PollGroup = k_HSteamNetPollGroup_Invalid
      ∧ ∀ (t : Server) (r : ReceiveReply) (rest : List ReceiveReply),
          t.m_Running = true → t.m_Interface = true → r.messageCount < 0 →
          Server.PollIncomingMessages t (r :: rest)
            = some { t with
                m_Running := false
                trace := t.trace ++ [Event.ReceiveMessagesOnPollGroup t.m_PollGroup] } := by
  obtain ⟨atExit, hExit⟩ := Option.isSome_iff_exists.mp hLoop
  obtain ⟨hAdv, hStopped⟩ := Server.Advances.step_pumpLoop api script _ atExit hExit
  obtain ⟨hI, hL, hG, hWF, mid, hMid, hMidOk⟩ := hAdv
  have hIfaceExit : atExit.m_Interface = true := hI
  have hMapExit : StdMap.WF atExit.m_ConnectedClients := hWF hMap
  have hCloses : List.map (fun h => Event.CloseConnection h 0 (some "Server Shutdown") true)
      (StdMap.keys atExit.m_ConnectedClients)
      = List.map Server.shutdownClose (StdMap.keys atExit.m_ConnectedClients) := rfl
  have hInj : Function.Injective Server.shutdownClose := by
    intro a b hab
    simp only [Server.shutdownClose, Event.CloseConnection.injEq] at hab
    exact hab.1
  refine ⟨atExit,
    { atExit with
      m_ConnectedClients := []
      m_ListenSocket := k_HSteamListenSocket_Invalid
      m_PollGroup := k_HSteamNetPollGroup_Invalid
      trace := atExit.trace ++
        (List.map Server.shutdownClose (StdMap.keys atExit.m_ConnectedClients)
          ++ [Event.CloseListenSocket atExit.m_ListenSocket,
              Event.DestroyPollGroup atExit.m_PollGroup,
              Event.GameNetworkingSockets_Kill]) },
    [Event.GameNetworkingSockets_Init,
     Event.CreateListenSocketIP (s.m_Port % 65536).toNat,
     Event.CreatePollGroup] ++ mid,
    atExit.GetConnectedClients.keys.map
        (fun h => Event.CloseConnection h 0 (some "Server Shutdown") true)
      ++ [Event.CloseListenSocket (api.CreateListenSocketIP (s.m_Port % 65536).toNat),
          Event.DestroyPollGroup api.CreatePollGroup,
          Event.GameNetworkingSockets_Kill],
    hExit, hStopped, ?_, ?_, ?_, ?_, rfl, ?_, ?_, ?_, ?_, ?_, ?_⟩
  · rw [Server.NetworkThreadFunc_enters_loop api s script hInit hIface hListen hGroup, hExit]
    exact Server.teardown_eq atExit hIfaceExit
  · rw [hMid]
    simp [Server.loopEntry]
  · intro e he
    rcases List.mem_append.mp he with he | he
    · simp only [List.mem_cons, List.mem_singleton, List.not_mem_nil, or_false] at he
      rcases he with he | he | he <;> rw [he] <;> rfl
    · exact hMidOk e he
  · show atExit.trace ++ _ = atExit.trace ++ _
    rw [hL, hG]
    rfl
  · intro h
    simp only [Server.GetConnectedClients]
    rw [hCloses, List.count_append]
    have hTail : List.count (Event.CloseConnection h 0 (some "Server Shutdown") true)
        [Event.CloseListenSocket (api.CreateListenSocketIP (s.m_Port % 65536).toNat),
         Event.DestroyPollGroup api.CreatePollGroup,
         Event.GameNetworkingSockets_Kill] = 0 := by
      simp [List.count_cons]
    have hEv : Event.CloseConnection h 0 (some "Server Shutdown") true
        = Server.shutdownClose h := rfl
    rw [hTail, hEv, List.count_map_of_injective _ _ hInj, Nat.add_zero]
    by_cases hMem : h ∈ StdMap.keys atExit.m_ConnectedClients
    · rw [if_pos hMem]
      exact List.count_eq_one_of_mem (StdMap.WF.nodup_keys hMapExit) hMem
    · rw [if_neg hMem]
      exact List.count_eq_zero_of_not_mem hMem
  · simp only [Server.GetConnectedClients]
    rw [hCloses, List.count_append, List.count_append, List.count_append]
    have hPre : List.count Event.GameNetworkingSockets_Kill
        [Event.GameNetworkingSockets_Init,
         Event.CreateListenSocketIP (s.m_Port % 65536).toNat,
         Event.CreatePollGroup] = 0 := by
      simp [List.count_cons]
    have hMidKill := Event.count_kill_of_no_teardown mid hMidOk
    have hCloseKill : List.count Event.GameNetworkingSockets_Kill
        (List.map Server.shutdownClose (StdMap.keys atExit.m_ConnectedClients)) = 0 := by
      refine List.count_eq_zero_of_not_mem ?_
      intro hMem
      obtain ⟨h, _, hEq⟩ := List.mem_map.mp hMem
      simp [Server.shutdownClose] at hEq
    have hTail : List.count Event.GameNetworkingSockets_Kill
        [Event.CloseListenSocket (api.CreateListenSocketIP (s.m_Port % 65536).toNat),
         Event.DestroyPollGroup api.CreatePollGroup,
         Event.GameNetworkingSockets_Kill] = 1 := by
      simp [List.count_cons]
    rw [hPre, hMidKill, hCloseKill, hTail]
  · rfl
  · rfl
  · rfl
  · intro t r rest hRun hIf hNeg
    exact Server.PollIncomingMessages_error t r rest hRun hIf hNeg

/-- C14 (witness): a new server on port 8192 starts its pump, accepts the pending link
7 in the first cycle and gets the receive count -1 in the second; the run returns with
an empty registry and both handles invalid, after one "Server Shutdown" close for
connection 7. -/
theorem C14_server_teardown_runs_exactly_once_witness :
    ∃ atExit final after,
      Server.pumpLoop Examples.api (Server.loopEntry Examples.api (Server.new 8192))
        Examples.acceptThenReceiveError = some atExit
      ∧ atExit.m_Running = false
      ∧ Server.NetworkThreadFunc Examples.api (Server.new 8192)
          Examples.acceptThenReceiveError = some final
      ∧ final.trace = atExit.trace ++ after
      ∧ after.count (Event.CloseConnection 7 0 (some "Server Shutdown") true)
          = (if 7 ∈ atExit.GetConnectedClients.keys then 1 else 0)
      ∧ final.GetConnectedClients = []
      ∧ final.m_ListenSocket = k_HSteamListenSocket_Invalid
      ∧ final.m_PollGroup = k_HSteamNetPollGroup_Invalid := by
  obtain ⟨atExit, final, _, after, hExit, hStopped, hRun, _, _, hTrace, _, hCount, _, hEmpty,
      hSocket, hGroup, _⟩ :=
    C14_server_teardown_runs_exactly_once Examples.api (Server.new 8192)
      Examples.acceptThenReceiveError rfl rfl (by decide) (by decide)
      (by simp [StdMap.WF, StdMap.keys, Server.GetConnectedClients, Server.new])
      (by decide)
  exact ⟨atExit, final, after, hExit, hStopped, hRun, hTrace, hCount 7, hEmpty, hSocket, hGroup⟩

end Utopia
